import Mathlib

/-! Volume visualiser: dense volume, gradient field and brick cache.

A shallow embedding of

* `src/volume/volume.cpp` (the dense volume with reflecting `getVoxel`, its samplers, its
  histogram and its construction from a file),
* `Assignment_1/src/volume/gradient_volume.cpp` (the gradient field),
* `Asssignment_2/src/volume/gpu_volume.cpp` (the brick min/max table and the brick cache),
* `Asssignment_2/src/render/gpu_renderer.cpp` (the block table),
* `Asssignment_2/src/volume/volume.cpp` (the voxel access and the linear blend),

followed by theorems about them.

Conventions of the embedding.

* `float` is an arbitrary linearly ordered field `F` with a floor function; arithmetic is exact,
  except where a definition says that it rounds (`floatAdd`, the size of the histogram).
  Every definition is computable and can be run at `F = ℚ`.
* `int` is `Int`; the values are assumed small enough that the C++ arithmetic does not overflow,
  except where a definition says that it wraps (`flatIndex32`, the index of the second
  assignment's `getVoxel`).
* `std::vector<T>` is `List T`.  `operator[]` is unchecked in C++: a read or write outside the
  vector is undefined behaviour, which the embedding reports as `none`.
* `throw std::exception()` is `Except.error StdException.mk`.
* Timers and console output are left out.
-/

set_option linter.unusedSectionVars false
set_option maxRecDepth 10000

namespace VolVis

/-! ## Vectors -/

/-- Integer triple `glm::ivec3`. -/
structure IVec3 where
  x : Int
  y : Int
  z : Int
deriving DecidableEq, Repr

/-- Float pair `glm::vec2`. -/
structure Vec2 (F : Type) where
  x : F
  y : F
deriving DecidableEq, Repr

/-- Float triple `glm::vec3`. -/
structure Vec3 (F : Type) where
  x : F
  y : F
  z : F
deriving DecidableEq, Repr

/-- Float quadruple `glm::vec4`. -/
structure Vec4 (F : Type) where
  x : F
  y : F
  z : F
  w : F
deriving DecidableEq, Repr

section Float

variable {F : Type} [LinearOrderedField F] [FloorRing F]

/-- The vector `glm::vec3(s)`, all components equal to `s`. -/
def Vec3.splat (s : F) : Vec3 F := ⟨s, s, s⟩

/-- The conversion `glm::vec3(d)` of an integer triple. -/
def Vec3.ofIVec3 (d : IVec3) : Vec3 F := ⟨(d.x : F), (d.y : F), (d.z : F)⟩

/-- Componentwise sum `a + b`. -/
def Vec3.add (a b : Vec3 F) : Vec3 F := ⟨a.x + b.x, a.y + b.y, a.z + b.z⟩

/-- Product with a scalar on the right, `a * s`. -/
def Vec3.scale (a : Vec3 F) (s : F) : Vec3 F := ⟨a.x * s, a.y * s, a.z * s⟩

/-- The sum `v + s` of a vector and a scalar, `s` added to every component. -/
def Vec3.addScalar (a : Vec3 F) (s : F) : Vec3 F := ⟨a.x + s, a.y + s, a.z + s⟩

/-- The test `glm::any(glm::lessThan(a, b))`. -/
def Vec3.anyLessThan (a b : Vec3 F) : Bool :=
  decide (a.x < b.x) || decide (a.y < b.y) || decide (a.z < b.z)

/-- The test `glm::any(glm::greaterThanEqual(a, b))`. -/
def Vec3.anyGreaterThanEqual (a b : Vec3 F) : Bool :=
  decide (a.x ≥ b.x) || decide (a.y ≥ b.y) || decide (a.z ≥ b.z)

/-- The length `glm::length(v)`, the square root of `dot(v, v)`; `sqrt` is the square root of the
floating point library. -/
def Vec3.length (sqrt : F → F) (v : Vec3 F) : F := sqrt (v.x * v.x + v.y * v.y + v.z * v.z)

/-! ## Conversions and unchecked vector access -/

/-- The conversion `static_cast<int>(f)`: the fractional part is discarded (rounding towards
zero). -/
def truncToInt (f : F) : Int := if 0 ≤ f then Int.floor f else Int.ceil f

/-- The binary32 number nearest to `x`, a tie going to the even significand: the rounding that
ends every `float` operation.  A binary32 number has 24 significant bits; the limits of the
exponent range (subnormal numbers, overflow to infinity) are not modelled. -/
def roundFloat32 (x : F) : F :=
  if x = 0 then 0
  else
    let e : Int := Int.log 2 |x|
    let ulp : F := (2 : F) ^ (e - 23)
    let q : F := |x| / ulp
    let f : Int := Int.floor q
    let r : Int :=
      if q - (f : F) < 1 / 2 then f
      else if 1 / 2 < q - (f : F) then f + 1
      else if f % 2 = 0 then f
      else f + 1
    if 0 ≤ x then (r : F) * ulp else -((r : F) * ulp)

/-- The `float` sum `a + b`: the exact sum, rounded to binary32. -/
def floatAdd (a b : F) : F := roundFloat32 (a + b)

/-- The remainder `fmodf(f, 1)`: `f` minus its integer part, with the sign of `f`. -/
def fmodOne (f : F) : F := f - ((truncToInt f : Int) : F)

/-- The unchecked read `data[size_t(i)]`.  A negative `i` converts to a `size_t` beyond every
vector size, so it is out of bounds as well. -/
def readAt {α : Type} (data : List α) (i : Int) : Option α :=
  if i < 0 then none else data[i.toNat]?

/-- The unchecked write `data[size_t(i)] = a`. -/
def writeAt {α : Type} (data : List α) (i : Int) (a : α) : Option (List α) :=
  if i < 0 then none else if i.toNat < data.length then some (data.set i.toNat a) else none

/-- The allocation `std::vector<T> out(static_cast<size_t>(n))` of `n` value-initialised
elements; a negative `n` converts to a size no allocation can serve. -/
def allocate {α : Type} (n : Int) (zero : α) : Option (List α) :=
  if n < 0 then none else some (List.replicate n.toNat zero)

/-- The call `data.resize(n)`: the first `n` elements are kept and value-initialised elements
are appended up to length `n`. -/
def resize {α : Type} (data : List α) (n : Nat) (zero : α) : List α :=
  data.take n ++ List.replicate (n - data.length) zero

/-- The values taken by `i` in `for (int i = lo; i < hi; i++)`. -/
def loopRange (lo hi : Int) : List Int :=
  (List.range (hi - lo).toNat).map (fun (k : Nat) => lo + (k : Int))

/-- The iterator `std::max_element(begin, end, comp)` dereferenced: the first element that no
other element exceeds; dereferencing the end iterator of an empty range is undefined. -/
def maxElement {α : Type} (comp : α → α → Bool) : List α → Option α
  | [] => none
  | a :: rest => some (rest.foldl (fun largest cur => if comp largest cur then cur else largest) a)

/-- The iterator `std::min_element(begin, end, comp)` dereferenced. -/
def minElement {α : Type} (comp : α → α → Bool) : List α → Option α
  | [] => none
  | a :: rest =>
    some (rest.foldl (fun smallest cur => if comp cur smallest then cur else smallest) a)

/-! ## Interpolation mode -/

/-- The enumeration `volume::InterpolationMode`.  An `enum class` object can hold every value of
its underlying integer type (the menu writes it through an `int*`); `other raw` stands for the
values that are none of the three enumerators. -/
inductive InterpolationMode where
  | NearestNeighbour
  | Linear
  | Cubic
  | other (raw : Int)
deriving DecidableEq, Repr

/-- The exception object of `throw std::exception()`. -/
inductive StdException where
  | mk
deriving DecidableEq, Repr

/-! ## Dense volume (`src/volume/volume.cpp`) -/

/-- The data members of `volume::Volume`. -/
structure Volume (F : Type) where
  m_dim : IVec3
  m_data : List F
  m_minimum : F
  m_maximum : F
  m_histogram : List Int
  interpolationMode : InterpolationMode := InterpolationMode.NearestNeighbour

/-- The class invariant of a loaded volume: one sample per voxel. -/
def Volume.WellFormed (v : Volume F) : Prop :=
  (v.m_data.length : Int) = v.m_dim.x * v.m_dim.y * v.m_dim.z

/-- The accessor `Volume::dims`. -/
def Volume.dims (v : Volume F) : IVec3 := v.m_dim

/-- The accessor `Volume::maximum`. -/
def Volume.maximum (v : Volume F) : F := v.m_maximum

/-- The accessor `Volume::minimum`. -/
def Volume.minimum (v : Volume F) : F := v.m_minimum

/-- The function `reflectIndex`. -/
def reflectIndex (idx maxIdx : Int) : Int :=
  if idx < 0 then -idx
  else if idx > maxIdx then 2 * maxIdx - idx
  else idx

/-- The flat index `x + dim.x * (y + dim.y * z)` of a voxel as an exact integer, the index of
the specification.  The code evaluates the expression in `int`; see `flatIndex32`, which is the
same number as long as the volume has fewer than `2^31` voxels. -/
def flatIndex (dim : IVec3) (x y z : Int) : Int := x + dim.x * (y + dim.y * z)

/-- The value that a 32-bit `int` holds when the exact result of an operation is `n`: `n`
itself from `-2^31` to `2^31 - 1`, and `n` reduced modulo `2^32` into that range beyond it (what
the two's complement hardware leaves; the language calls the overflow undefined). -/
def wrapInt32 (n : Int) : Int := (n + 2147483648) % 4294967296 - 2147483648

/-- The flat index `x + dim.x * (y + dim.y * z)` as the code evaluates it, every operation in
32-bit `int`. -/
def flatIndex32 (dim : IVec3) (x y z : Int) : Int :=
  wrapInt32 (x + wrapInt32 (dim.x * wrapInt32 (y + wrapInt32 (dim.y * z))))

/-- The method `Volume::getVoxel`, with reflected indices. -/
def Volume.getVoxel (v : Volume F) (x y z : Int) : Option F :=
  let x := reflectIndex x (v.m_dim.x - 1)
  let y := reflectIndex y (v.m_dim.y - 1)
  let z := reflectIndex z (v.m_dim.z - 1)
  let i := x + v.m_dim.x * (y + v.m_dim.y * z)
  readAt v.m_data i

/-- The function `Volume::linearInterpolate`. -/
def Volume.linearInterpolate (g0 g1 factor : F) : F := (1 - factor) * g0 + factor * g1

/-- The method `Volume::getSampleNearestNeighbourInterpolation`. -/
def Volume.getSampleNearestNeighbourInterpolation (v : Volume F) (coord : Vec3 F) : Option F :=
  if Vec3.anyLessThan (coord.addScalar (1 / 2)) (Vec3.splat 0)
      || Vec3.anyGreaterThanEqual (coord.addScalar (1 / 2)) (Vec3.ofIVec3 v.m_dim) then
    some 0
  else
    let roundToPositiveInt := fun (f : F) => truncToInt (f + 1 / 2)
    v.getVoxel (roundToPositiveInt coord.x) (roundToPositiveInt coord.y)
      (roundToPositiveInt coord.z)

/-- The method `Volume::getSampleTriLinearInterpolation`. -/
def Volume.getSampleTriLinearInterpolation (v : Volume F) (coord : Vec3 F) : Option F :=
  let x0 : Int := Int.floor coord.x
  let y0 : Int := Int.floor coord.y
  let z0 : Int := Int.floor coord.z
  let x1 := x0 + 1
  let y1 := y0 + 1
  let z1 := z0 + 1
  if x0 < 0 ∨ y0 < 0 ∨ z0 < 0 ∨ x1 ≥ v.m_dim.x ∨ y1 ≥ v.m_dim.y ∨ z1 ≥ v.m_dim.z then
    some 0
  else do
    let v000 ← v.getVoxel x0 y0 z0
    let v001 ← v.getVoxel x0 y0 z1
    let v010 ← v.getVoxel x0 y1 z0
    let v011 ← v.getVoxel x0 y1 z1
    let v100 ← v.getVoxel x1 y0 z0
    let v101 ← v.getVoxel x1 y0 z1
    let v110 ← v.getVoxel x1 y1 z0
    let v111 ← v.getVoxel x1 y1 z1
    let i00 := Volume.linearInterpolate v000 v100 (coord.x - (x0 : F))
    let i01 := Volume.linearInterpolate v001 v101 (coord.x - (x0 : F))
    let i10 := Volume.linearInterpolate v010 v110 (coord.x - (x0 : F))
    let i11 := Volume.linearInterpolate v011 v111 (coord.x - (x0 : F))
    let i0 := Volume.linearInterpolate i00 i10 (coord.y - (y0 : F))
    let i1 := Volume.linearInterpolate i01 i11 (coord.y - (y0 : F))
    pure (Volume.linearInterpolate i0 i1 (coord.z - (z0 : F)))

/-- The method `Volume::biLinearInterpolate`. -/
def Volume.biLinearInterpolate (v : Volume F) (xyCoord : Vec2 F) (z : Int) : Option F :=
  let x0 : Int := Int.floor xyCoord.x
  let y0 : Int := Int.floor xyCoord.y
  let x1 := x0 + 1
  let y1 := y0 + 1
  if x0 < 0 ∨ y0 < 0 ∨ x1 ≥ v.m_dim.x ∨ y1 ≥ v.m_dim.y then
    some 0
  else do
    let v00 ← v.getVoxel x0 y0 z
    let v01 ← v.getVoxel x0 y1 z
    let v10 ← v.getVoxel x1 y0 z
    let v11 ← v.getVoxel x1 y1 z
    let i0 := Volume.linearInterpolate v00 v10 (xyCoord.x - (x0 : F))
    let i1 := Volume.linearInterpolate v01 v11 (xyCoord.x - (x0 : F))
    pure (Volume.linearInterpolate i0 i1 (xyCoord.y - (y0 : F)))

/-- The function `Volume::weight`, the cubic kernel with `alpha = -0.5`.  The unqualified call
`abs(x)` has no floating point overload in scope under g++ with libstdc++ and resolves to
`int abs(int)` of the C library: `x` is converted to `int`, which discards its fractional part,
and the absolute value of that integer is converted back to `float`. -/
def Volume.weight (x : F) : F :=
  let alpha : F := -1 / 2
  let abs_x : F := ((|truncToInt x| : Int) : F)
  if abs_x ≤ 1 then
    (alpha + 2) * (abs_x * abs_x * abs_x) - (alpha + 3) * (abs_x * abs_x) + 1
  else if abs_x < 2 then
    alpha * (abs_x * abs_x * abs_x) - 5 * alpha * (abs_x * abs_x) + 8 * alpha * abs_x - 4 * alpha
  else
    0

/-- The function `Volume::cubicInterpolate`. -/
def Volume.cubicInterpolate (g0 g1 g2 g3 factor : F) : F :=
  g0 * Volume.weight (factor + 1) + g1 * Volume.weight factor
    + g2 * Volume.weight (factor - 1) + g3 * Volume.weight (factor - 2)

/-- One pass of the outer loop of `Volume::biCubicInterpolate`: the four voxels of row `y + j`
are read for `i = -1, 0, 1, 2` and blended along x. -/
def Volume.biCubicRow (v : Volume F) (x y z : Int) (dx : F) (j : Int) : Option F := do
  let row0 ← v.getVoxel (x + -1) (y + j) z
  let row1 ← v.getVoxel (x + 0) (y + j) z
  let row2 ← v.getVoxel (x + 1) (y + j) z
  let row3 ← v.getVoxel (x + 2) (y + j) z
  pure (Volume.cubicInterpolate row0 row1 row2 row3 dx)

/-- The method `Volume::biCubicInterpolate`. -/
def Volume.biCubicInterpolate (v : Volume F) (xyCoord : Vec2 F) (z : Int) : Option F := do
  let x : Int := Int.floor xyCoord.x
  let y : Int := Int.floor xyCoord.y
  let dx := xyCoord.x - (x : F)
  let dy := xyCoord.y - (y : F)
  let col0 ← v.biCubicRow x y z dx (-1)
  let col1 ← v.biCubicRow x y z dx 0
  let col2 ← v.biCubicRow x y z dx 1
  let col3 ← v.biCubicRow x y z dx 2
  pure (Volume.cubicInterpolate col0 col1 col2 col3 dy)

/-- The method `Volume::getSampleTriCubicInterpolation`. -/
def Volume.getSampleTriCubicInterpolation (v : Volume F) (coord : Vec3 F) : Option F := do
  let z : Int := Int.floor coord.z
  let dz := coord.z - (z : F)
  let slab0 ← v.biCubicInterpolate ⟨coord.x, coord.y⟩ (z + -1)
  let slab1 ← v.biCubicInterpolate ⟨coord.x, coord.y⟩ (z + 0)
  let slab2 ← v.biCubicInterpolate ⟨coord.x, coord.y⟩ (z + 1)
  let slab3 ← v.biCubicInterpolate ⟨coord.x, coord.y⟩ (z + 2)
  pure (Volume.cubicInterpolate slab0 slab1 slab2 slab3 dz)

/-- The method `Volume::getSampleInterpolate`: the outer result is the thrown exception, the
inner one the value of the sampler. -/
def Volume.getSampleInterpolate (v : Volume F) (coord : Vec3 F) :
    Except StdException (Option F) :=
  match v.interpolationMode with
  | InterpolationMode.NearestNeighbour =>
    Except.ok (v.getSampleNearestNeighbourInterpolation coord)
  | InterpolationMode.Linear => Except.ok (v.getSampleTriLinearInterpolation coord)
  | InterpolationMode.Cubic => Except.ok (v.getSampleTriCubicInterpolation coord)
  | InterpolationMode.other _ => Except.error StdException.mk

/-! ## Gradient field (`Assignment_1/src/volume/gradient_volume.cpp`) -/

/-- The record `volume::GradientVoxel`. -/
structure GradientVoxel (F : Type) where
  dir : Vec3 F
  magnitude : F
deriving DecidableEq, Repr

/-- The value-initialised voxel, also written `{ glm::vec3(0.0f), 0.0f }`. -/
def GradientVoxel.zero : GradientVoxel F := ⟨Vec3.splat 0, 0⟩

/-- The function `computeMaxMagnitude`. -/
def computeMaxMagnitude (data : List (GradientVoxel F)) : Option F :=
  (maxElement (fun lhs rhs => decide (lhs.magnitude < rhs.magnitude)) data).map
    (fun g => g.magnitude)

/-- The function `computeMinMagnitude`. -/
def computeMinMagnitude (data : List (GradientVoxel F)) : Option F :=
  (minElement (fun lhs rhs => decide (lhs.magnitude < rhs.magnitude)) data).map
    (fun g => g.magnitude)

/-- The body of the innermost loop of `computeGradientVolume` at voxel `(x, y, z)`. -/
def gradientStep (sqrt : F → F) (volume : Volume F) (dim : IVec3) (z y : Int)
    (out : List (GradientVoxel F)) (x : Int) : Option (List (GradientVoxel F)) := do
  let xp ← volume.getVoxel (x + 1) y z
  let xm ← volume.getVoxel (x - 1) y z
  let gx := (xp - xm) / 2
  let yp ← volume.getVoxel x (y + 1) z
  let ym ← volume.getVoxel x (y - 1) z
  let gy := (yp - ym) / 2
  let zp ← volume.getVoxel x y (z + 1)
  let zm ← volume.getVoxel x y (z - 1)
  let gz := (zp - zm) / 2
  let v : Vec3 F := ⟨gx, gy, gz⟩
  let index := x + dim.x * (y + dim.y * z)
  writeAt out index ⟨v, Vec3.length sqrt v⟩

/-- The function `computeGradientVolume`: three nested loops over the interior voxels. -/
def computeGradientVolume (sqrt : F → F) (volume : Volume F) :
    Option (List (GradientVoxel F)) := do
  let dim := volume.dims
  let out ← allocate (dim.x * dim.y * dim.z) GradientVoxel.zero
  (loopRange 1 (dim.z - 1)).foldlM (fun out z =>
    (loopRange 1 (dim.y - 1)).foldlM (fun out y =>
      (loopRange 1 (dim.x - 1)).foldlM (fun out x =>
        gradientStep sqrt volume dim z y out x) out) out) out

/-- The data members of `volume::GradientVolume`. -/
structure GradientVolume (F : Type) where
  m_dim : IVec3
  m_data : List (GradientVoxel F)
  m_minMagnitude : F
  m_maxMagnitude : F
  interpolationMode : InterpolationMode := InterpolationMode.NearestNeighbour

/-- The constructor `GradientVolume::GradientVolume(const Volume&)`. -/
def GradientVolume.ofVolume (sqrt : F → F) (volume : Volume F) : Option (GradientVolume F) := do
  let m_data ← computeGradientVolume sqrt volume
  let m_minMagnitude ← computeMinMagnitude m_data
  let m_maxMagnitude ← computeMaxMagnitude m_data
  pure ⟨volume.dims, m_data, m_minMagnitude, m_maxMagnitude, InterpolationMode.NearestNeighbour⟩

/-- The accessor `GradientVolume::maxMagnitude`. -/
def GradientVolume.maxMagnitude (g : GradientVolume F) : F := g.m_maxMagnitude

/-- The accessor `GradientVolume::minMagnitude`. -/
def GradientVolume.minMagnitude (g : GradientVolume F) : F := g.m_minMagnitude

/-- The accessor `GradientVolume::dims`. -/
def GradientVolume.dims (g : GradientVolume F) : IVec3 := g.m_dim

/-- The method `GradientVolume::getGradient`.  The index is the exact integer, which is what
the 32-bit expression of the code yields for every in-range voxel of a volume with fewer than
`2^31` voxels (`flatIndex32_eq`). -/
def GradientVolume.getGradient (g : GradientVolume F) (x y z : Int) : Option (GradientVoxel F) :=
  let i := x + g.m_dim.x * (y + g.m_dim.y * z)
  readAt g.m_data i

/-- The function `GradientVolume::linearInterpolate`. -/
def GradientVolume.linearInterpolate (g0 g1 : GradientVoxel F) (factor : F) : GradientVoxel F :=
  ⟨(g0.dir.scale (1 - factor)).add (g1.dir.scale factor),
    g0.magnitude * (1 - factor) + g1.magnitude * factor⟩

/-- The method `GradientVolume::getGradientNearestNeighbor`. -/
def GradientVolume.getGradientNearestNeighbor (g : GradientVolume F) (coord : Vec3 F) :
    Option (GradientVoxel F) :=
  if Vec3.anyLessThan coord (Vec3.splat 0)
      || Vec3.anyGreaterThanEqual coord (Vec3.ofIVec3 g.m_dim) then
    some ⟨Vec3.splat 0, 0⟩
  else
    let roundToPositiveInt := fun (f : F) => truncToInt (f + 1 / 2)
    g.getGradient (roundToPositiveInt coord.x) (roundToPositiveInt coord.y)
      (roundToPositiveInt coord.z)

/-- The method `GradientVolume::getGradientLinearInterpolate`. -/
def GradientVolume.getGradientLinearInterpolate (g : GradientVolume F) (coord : Vec3 F) :
    Option (GradientVoxel F) :=
  if Vec3.anyLessThan coord (Vec3.splat 0)
      || Vec3.anyGreaterThanEqual coord (Vec3.ofIVec3 g.m_dim) then
    some ⟨Vec3.splat 0, 0⟩
  else do
    let x0 := truncToInt coord.x
    let y0 := truncToInt coord.y
    let z0 := truncToInt coord.z
    let x1 := x0 + 1
    let y1 := y0 + 1
    let z1 := z0 + 1
    let fx := fmodOne coord.x
    let fy := fmodOne coord.y
    let fz := fmodOne coord.z
    let v000 ← g.getGradient x0 y0 z0
    let v001 ← g.getGradient x0 y0 z1
    let v011 ← g.getGradient x0 y1 z1
    let v010 ← g.getGradient x0 y1 z0
    let v110 ← g.getGradient x1 y1 z0
    let v111 ← g.getGradient x1 y1 z1
    let v101 ← g.getGradient x1 y0 z1
    let v100 ← g.getGradient x1 y0 z0
    let v00 := GradientVolume.linearInterpolate v000 v001 fz
    let v01 := GradientVolume.linearInterpolate v010 v011 fz
    let v11 := GradientVolume.linearInterpolate v110 v111 fz
    let v10 := GradientVolume.linearInterpolate v100 v101 fz
    let v0 := GradientVolume.linearInterpolate v00 v01 fy
    let v1 := GradientVolume.linearInterpolate v10 v11 fy
    pure (GradientVolume.linearInterpolate v0 v1 fx)

/-- The method `GradientVolume::getGradientInterpolate`: the outer result is the thrown
exception, the inner one the value of the sampler. -/
def GradientVolume.getGradientInterpolate (g : GradientVolume F) (coord : Vec3 F) :
    Except StdException (Option (GradientVoxel F)) :=
  match g.interpolationMode with
  | InterpolationMode.NearestNeighbour => Except.ok (g.getGradientNearestNeighbor coord)
  | InterpolationMode.Linear => Except.ok (g.getGradientLinearInterpolate coord)
  | InterpolationMode.Cubic => Except.ok (g.getGradientLinearInterpolate coord)
  | InterpolationMode.other _ => Except.error StdException.mk

/-! ## Brick min/max table (`Asssignment_2/src/volume/gpu_volume.cpp`) -/

/-- The record `render::GPUVolumeConfig` with its default member initialisers. -/
structure GPUVolumeConfig where
  brickSize : Int := 32
  useVolumeBricking : Bool := false
deriving DecidableEq, Repr

/-- What a `volume::Texture` was last given: the uploaded array and its dimensions. -/
inductive Texture (F : Type) where
  | floats (data : List F) (dims : IVec3)
  | vec3s (data : List (Vec3 F)) (dims : IVec3)
  | vec4s (data : List (Vec4 F)) (dims : IVec3)

/-- The data members of `volume::GPUVolume`. -/
structure GPUVolume (F : Type) where
  m_volumeTexture : Texture F
  m_indexTexture : Texture F
  m_pVolume : Volume F
  m_volumeConfig : GPUVolumeConfig
  m_brickSize : Int
  m_useBricking : Bool
  m_brickPadding : Int
  m_volumeDims : IVec3
  m_brickVolumeSize : IVec3
  m_brickVolume : List F
  m_indexVolumeSize : IVec3
  m_indexVolume : List (Vec3 F)
  m_minMaxValues : List (Vec2 F)

/-- The constructor `GPUVolume::GPUVolume(const Volume*)`. -/
def GPUVolume.ofVolume (volume : Volume F) : GPUVolume F where
  m_volumeTexture := Texture.floats volume.m_data volume.dims
  m_indexTexture := Texture.floats [] ⟨1, 1, 1⟩
  m_pVolume := volume
  m_volumeConfig := ⟨32, false⟩
  m_minMaxValues := []
  m_brickVolumeSize := ⟨0, 0, 0⟩
  m_brickVolume := []
  m_indexVolumeSize := ⟨0, 0, 0⟩
  m_indexVolume := []
  m_volumeDims := ⟨-1, -1, -1⟩
  m_brickSize := -1
  m_useBricking := false
  m_brickPadding := 2

/-- The method `GPUVolume::setVolumeConfig`. -/
def GPUVolume.setVolumeConfig (g : GPUVolume F) (config : GPUVolumeConfig) : GPUVolume F :=
  { g with m_volumeConfig := config }

/-- The method `GPUVolume::updateMinMax`. -/
def GPUVolume.updateMinMax (g : GPUVolume F) : Option (GPUVolume F) := do
  let m_indexVolumeSize : IVec3 := ⟨1, 1, 1⟩
  let numBricksLinear : Int := m_indexVolumeSize.x * m_indexVolumeSize.y * m_indexVolumeSize.z
  let m_minMaxValues := resize g.m_minMaxValues numBricksLinear.toNat (⟨0, 0⟩ : Vec2 F)
  let m_minMaxValues ← writeAt m_minMaxValues 0 ⟨0, g.m_pVolume.maximum⟩
  pure { g with m_indexVolumeSize := m_indexVolumeSize, m_minMaxValues := m_minMaxValues }

/-- The rounded-up quotient `ceil(d / b)` of the specification. -/
def ceilDiv (d b : Int) : Int := (d + b - 1) / b

/-! ## Brick cache (`Asssignment_2/src/volume/gpu_volume.cpp`), continued -/

/-- The enumeration `render::RenderMode`. -/
inductive RenderMode where
  | RenderSlicer
  | RenderMIP
  | RenderIso
  | RenderComposite
deriving DecidableEq, Repr

/-- The record `render::RenderConfig` with its default member initialisers; the members without
one (`renderResolution`, `tfColorMap`, `tfColorMapIndexStart`, `tfColorMapIndexRange`,
`tfTexId`) have to be given.  `tfColorMap` is the `std::array<glm::vec4, 256>`. -/
structure RenderConfig (F : Type) [LinearOrderedField F] where
  renderMode : RenderMode := RenderMode.RenderSlicer
  renderResolution : Int × Int
  stepSize : F := 1
  volumeShading : Bool := false
  clippingPlanes : Bool := false
  useOpacityModulation : Bool := false
  illustrativeParams : Vec4 F := ⟨0, 1, 1, 1⟩
  updateTF : Bool := false
  isoValue : F := 95
  bisection : Bool := false
  renderStep : Int := 3
  tfColorMap : List (Vec4 F)
  tfColorMapIndexStart : F
  tfColorMapIndexRange : F
  tfTexId : Nat

/-- The accessor `Volume::getData` of `Asssignment_2/src/volume/volume.cpp`. -/
def Volume.getData (v : Volume F) : List F := v.m_data

/-- The overload `Texture::update(const std::vector<float>&, glm::ivec3)`: the texture now holds
the given array and dimensions. -/
def Texture.updateFloat (_t : Texture F) (floatTexture : List F) (dims : IVec3) : Texture F :=
  Texture.floats floatTexture dims

/-- The overload `Texture::update(const std::vector<glm::vec3>&, glm::ivec3)`. -/
def Texture.updateVec3 (_t : Texture F) (vec3Texture : List (Vec3 F)) (dims : IVec3) :
    Texture F :=
  Texture.vec3s vec3Texture dims

/-- The overload `Texture::update(const std::vector<glm::vec4>&, glm::ivec3)`. -/
def Texture.updateVec4 (_t : Texture F) (vec4Texture : List (Vec4 F)) (dims : IVec3) :
    Texture F :=
  Texture.vec4s vec4Texture dims

/-- The method `GPUVolume::updateBrickCache`. -/
def GPUVolume.updateBrickCache (g : GPUVolume F) (_renderConfig : RenderConfig F)
    (_opacitySumTable : List F) : GPUVolume F :=
  if !g.m_volumeConfig.useVolumeBricking then
    { g with
      m_volumeTexture := g.m_volumeTexture.updateFloat g.m_pVolume.getData g.m_pVolume.dims
      m_indexTexture := g.m_indexTexture.updateVec4 [⟨0, 0, 0, 0⟩] ⟨1, 1, 1⟩ }
  else
    { g with
      m_volumeTexture := g.m_volumeTexture.updateFloat g.m_brickVolume g.m_brickVolumeSize
      m_indexTexture := g.m_indexTexture.updateVec3 g.m_indexVolume g.m_indexVolumeSize }

/-- The method `GPUVolume::brickSizeChanged`. -/
def GPUVolume.brickSizeChanged (g : GPUVolume F) (renderConfig : RenderConfig F)
    (opacitySumTable : List F) : Option (GPUVolume F) :=
  if g.m_brickSize ≠ g.m_volumeConfig.brickSize
      ∨ g.m_useBricking ≠ g.m_volumeConfig.useVolumeBricking
      ∨ g.m_volumeDims ≠ g.m_pVolume.dims then do
    let g1 : GPUVolume F :=
      { g with
        m_brickSize := g.m_volumeConfig.brickSize
        m_useBricking := g.m_volumeConfig.useVolumeBricking
        m_volumeDims := g.m_pVolume.dims }
    let g2 ← g1.updateMinMax
    pure (g2.updateBrickCache renderConfig opacitySumTable)
  else
    pure g

/-- The method `GPUVolume::findOptimalDimensions`. -/
def GPUVolume.findOptimalDimensions (_g : GPUVolume F) (_N : Int) : IVec3 :=
  let optimalDimensions : IVec3 := ⟨1, 1, 1⟩
  optimalDimensions

/-! ## Block table (`Asssignment_2/src/render/gpu_renderer.cpp`) -/

/-- The record `render::GPUMeshConfig` with its default member initialisers. -/
structure GPUMeshConfig where
  blockSize : Int := 8
  useEmptySpaceSkipping : Bool := false
deriving DecidableEq, Repr

/-- The data members of `render::GPURenderer` that the blocking and bricking code uses; the
OpenGL handles, the matrices, the camera and the gradient volume pointer are left out. -/
structure GPURenderer (F : Type) [LinearOrderedField F] where
  m_pGPUVolume : GPUVolume F
  m_pVolume : Volume F
  m_renderConfig : RenderConfig F
  m_meshConfig : GPUMeshConfig
  m_numBlocks3D : Vec3 F
  m_positions : List (Vec3 F)
  m_blockActive : List Int
  m_minMaxValues : List (Vec2 F)
  m_opacitySumTable : List F

/-- The method `GPURenderer::updateOpacitySumTable`; its body is empty. -/
def GPURenderer.updateOpacitySumTable (r : GPURenderer F) : GPURenderer F := r

/-- The method `GPURenderer::updateBlockingMinMaxTable`.  The two `reserve` calls change
capacities only. -/
def GPURenderer.updateBlockingMinMaxTable (r : GPURenderer F) : GPURenderer F :=
  let m_numBlocks3D : Vec3 F := Vec3.splat 1
  let _numBlocks : Int := truncToInt (m_numBlocks3D.x * m_numBlocks3D.y * m_numBlocks3D.z)
  let m_positions : List (Vec3 F) := []
  let m_minMaxValues : List (Vec2 F) := []
  let m_positions := m_positions ++ [⟨0, 0, 0⟩]
  let m_minMaxValues := m_minMaxValues ++ [⟨0, r.m_pVolume.maximum⟩]
  { r with
    m_numBlocks3D := m_numBlocks3D
    m_positions := m_positions
    m_minMaxValues := m_minMaxValues }

/-- The method `GPURenderer::updateActiveBlocks`. -/
def GPURenderer.updateActiveBlocks (r : GPURenderer F) : Option (GPURenderer F) := do
  let m_blockActive := resize r.m_blockActive r.m_positions.length (0 : Int)
  if m_blockActive.length = 1 then
    let m_blockActive ← writeAt m_blockActive 0 1
    pure { r with m_blockActive := m_blockActive }
  else
    pure { r with m_blockActive := m_blockActive }

/-- The method `GPURenderer::updateGPUMesh`. -/
def GPURenderer.updateGPUMesh (r : GPURenderer F) (updateMinMax : Bool) :
    Option (GPURenderer F) :=
  let r1 := if updateMinMax then r.updateBlockingMinMaxTable else r
  let r2 := r1.updateOpacitySumTable
  r2.updateActiveBlocks

/-- The method `GPURenderer::setRenderConfig`. -/
def GPURenderer.setRenderConfig (r : GPURenderer F) (config : RenderConfig F) :
    Option (GPURenderer F) :=
  GPURenderer.updateGPUMesh { r with m_renderConfig := config } false

/-- The method `GPURenderer::setMeshConfig`. -/
def GPURenderer.setMeshConfig (r : GPURenderer F) (config : GPUMeshConfig) :
    Option (GPURenderer F) :=
  GPURenderer.updateGPUMesh { r with m_meshConfig := config } true

/-- The method `GPURenderer::updateVolumeBricks`. -/
def GPURenderer.updateVolumeBricks (r : GPURenderer F) : GPURenderer F :=
  { r with
    m_pGPUVolume := r.m_pGPUVolume.updateBrickCache r.m_renderConfig r.m_opacitySumTable }

/-- The method `GPURenderer::setVolumeBricksSize`. -/
def GPURenderer.setVolumeBricksSize (r : GPURenderer F) : Option (GPURenderer F) := do
  let g ← r.m_pGPUVolume.brickSizeChanged r.m_renderConfig r.m_opacitySumTable
  pure { r with m_pGPUVolume := g }

/-- The constructor `GPURenderer::GPURenderer`, from the blocking code's point of view: the
three vectors start empty, `m_numBlocks3D` and `m_opacitySumTable` have no initialiser and start
with the indeterminate contents `numBlocks0` and `table0`, and the body ends with
`updateGPUMesh(true)` and `updateOpacitySumTable()`. -/
def GPURenderer.create (pGPUVolume : GPUVolume F) (pVolume : Volume F)
    (config : RenderConfig F) (meshConfig : GPUMeshConfig) (numBlocks0 : Vec3 F)
    (table0 : List F) : Option (GPURenderer F) := do
  let r : GPURenderer F :=
    { m_pGPUVolume := pGPUVolume
      m_pVolume := pVolume
      m_renderConfig := config
      m_meshConfig := meshConfig
      m_numBlocks3D := numBlocks0
      m_positions := []
      m_blockActive := []
      m_minMaxValues := []
      m_opacitySumTable := table0 }
  let r ← r.updateGPUMesh true
  pure r.updateOpacitySumTable

/-! ## Dense volume of the second assignment (`Asssignment_2/src/volume/volume.cpp`) -/

/-- The method `Volume::getVoxel` of `Asssignment_2/src/volume/volume.cpp`: the indices are used
as they are, without reflection, and the index expression is evaluated in 32-bit `int` before
its conversion to `size_t`. -/
def Assignment2.Volume.getVoxel (v : Volume F) (x y z : Int) : Option F :=
  let i := wrapInt32 (x + wrapInt32 (v.m_dim.x * wrapInt32 (y + wrapInt32 (v.m_dim.y * z))))
  readAt v.m_data i

/-- The method `Volume::linearInterpolate` of `Asssignment_2/src/volume/volume.cpp`; its body is
`return 0.0f;`. -/
def Assignment2.Volume.linearInterpolate (_g0 _g1 _factor : F) : F := 0

/-! ## Construction of the dense volume (`src/volume/volume.cpp`) -/

/-- The function `computeMinimum`. -/
def computeMinimum (data : List F) : Option F :=
  minElement (fun a b => decide (a < b)) data

/-- The function `computeMaximum`. -/
def computeMaximum (data : List F) : Option F :=
  maxElement (fun a b => decide (a < b)) data

/-- One pass of the loop of `computeHistogram`, the statement `histogram[v]++`; the float `v` is
converted to the index. -/
def histogramStep (histogram : List Int) (v : F) : Option (List Int) := do
  let count ← readAt histogram (truncToInt v)
  writeAt histogram (truncToInt v) (count + 1)

/-- The function `computeHistogram`.  The size of the array is `maximum + 1`, a sum of two
`float` values and so rounded to binary32, converted to `size_t`. -/
def computeHistogram (data : List F) : Option (List Int) := do
  let maximum ← maxElement (fun a b => decide (a < b)) data
  let histogram ← allocate (truncToInt (floatAdd maximum 1)) (0 : Int)
  data.foldlM histogramStep histogram

/-- The constructor `Volume::Volume(std::vector<float> data, const glm::ivec3& dim)`. -/
def Volume.ofData (data : List F) (dim : IVec3) : Option (Volume F) := do
  let m_minimum ← computeMinimum data
  let m_maximum ← computeMaximum data
  let m_histogram ← computeHistogram data
  pure ⟨dim, data, m_minimum, m_maximum, m_histogram, InterpolationMode.NearestNeighbour⟩

/-- The enumeration `volume::FileExtension`. -/
inductive FileExtension where
  | FLD
  | DAT
deriving DecidableEq, Repr

/-- The ways in which the constructor from a file can fail to return: a failed `assert` aborts
the program, an access outside a vector is undefined.  The code throws no exception. -/
inductive LoadFault where
  | assertionFailed
  | undefinedAccess
deriving DecidableEq, Repr

/-- The call `std::transform(s.begin(), s.end(), s.begin(), ::tolower)`: every character is
replaced by its lower-case form. -/
def toLowerString (s : String) : String := ⟨s.data.map Char.toLower⟩

/-- The method `Volume::loadFile`.  `fileOpens` says that the file exists and the stream opens
(the two assertions), `extension` is `file.extension().string()`, and `parse` stands for what
`readHeader` and `loadVolumeData` read from the stream, the dims and the samples.  The second
component of the result is what was written to `std::cerr`. -/
def Volume.loadFile (v : Volume F) (fileOpens : Bool) (extension : String)
    (parse : FileExtension → IVec3 × List F) : Except LoadFault (Volume F × List String) :=
  if !fileOpens then
    Except.error LoadFault.assertionFailed
  else
    let extension := toLowerString extension
    if extension = ".fld" then
      Except.ok ({ v with
        m_dim := (parse FileExtension.FLD).1
        m_data := (parse FileExtension.FLD).2 }, [])
    else if extension = ".dat" then
      Except.ok ({ v with
        m_dim := (parse FileExtension.DAT).1
        m_data := (parse FileExtension.DAT).2 }, [])
    else
      Except.ok (v, ["Unsupported file extension: ", extension, "\n"])

/-- The constructor `Volume::Volume(const std::filesystem::path& file)`.  The members without an
initialiser in the constructor start as `dim0`, `minimum0`, `maximum0`; the two vectors start
empty. -/
def Volume.ofFile (fileOpens : Bool) (extension : String)
    (parse : FileExtension → IVec3 × List F) (dim0 : IVec3) (minimum0 maximum0 : F) :
    Except LoadFault (Volume F × List String) :=
  let fresh : Volume F := ⟨dim0, [], minimum0, maximum0, [], InterpolationMode.NearestNeighbour⟩
  match fresh.loadFile fileOpens extension parse with
  | Except.error e => Except.error e
  | Except.ok (v, cerr) =>
    if v.m_data.length > 0 then
      match computeMinimum v.m_data, computeMaximum v.m_data, computeHistogram v.m_data with
      | some lo, some hi, some histogram =>
        Except.ok ({ v with m_minimum := lo, m_maximum := hi, m_histogram := histogram }, cerr)
      | _, _, _ => Except.error LoadFault.undefinedAccess
    else
      Except.ok (v, cerr)

/-! ## Specification-side definitions -/

/-- The sample `V(x, y, z)` of the specification: the entry of the data array at the flat index
of `(x, y, z)`, and 0 where the array has no such entry. -/
def Volume.voxelAt (v : Volume F) (x y z : Int) : F :=
  (readAt v.m_data (flatIndex v.m_dim x y z)).getD 0

/-- The gradient voxel of the specification at `(x, y, z)`: the central differences of the
samples and the length of that vector. -/
def centralDifference (sqrt : F → F) (v : Volume F) (x y z : Int) : GradientVoxel F :=
  ⟨⟨(v.voxelAt (x + 1) y z - v.voxelAt (x - 1) y z) / 2,
      (v.voxelAt x (y + 1) z - v.voxelAt x (y - 1) z) / 2,
      (v.voxelAt x y (z + 1) - v.voxelAt x y (z - 1)) / 2⟩,
    Vec3.length sqrt
      ⟨(v.voxelAt (x + 1) y z - v.voxelAt (x - 1) y z) / 2,
        (v.voxelAt x (y + 1) z - v.voxelAt x (y - 1) z) / 2,
        (v.voxelAt x y (z + 1) - v.voxelAt x y (z - 1)) / 2⟩⟩

/-- The voxels visited by the three loops of `computeGradientVolume`, in the order of the
visits, as triples `(x, y, z)`. -/
def visitedVoxels (dim : IVec3) : List (Int × Int × Int) :=
  (loopRange 1 (dim.z - 1)).flatMap (fun z =>
    (loopRange 1 (dim.y - 1)).flatMap (fun y =>
      (loopRange 1 (dim.x - 1)).map (fun x => (x, y, z))))

/-- The loop invariant of `computeGradientVolume`: the output array has one entry per voxel, the
voxels in `done` hold their central difference and all other voxels are still zero. -/
def GradientFilled (sqrt : F → F) (v : Volume F) (done : List (Int × Int × Int))
    (out : List (GradientVoxel F)) : Prop :=
  (out.length : Int) = v.m_dim.x * v.m_dim.y * v.m_dim.z
    ∧ ∀ x y z : Int, 0 ≤ x → x < v.m_dim.x → 0 ≤ y → y < v.m_dim.y → 0 ≤ z → z < v.m_dim.z →
      ((x, y, z) ∈ done →
          readAt out (flatIndex v.m_dim x y z) = some (centralDifference sqrt v x y z))
        ∧ ((x, y, z) ∉ done → readAt out (flatIndex v.m_dim x y z) = some GradientVoxel.zero)

/-- The voxel values met by a direct scan of the in-bounds region of the logical brick
`(brickX, brickY, brickZ)` for brick size `b`:
`[brickX*b, min((brickX+1)*b, dx))` and likewise on the y and z axes. -/
def brickRegionValues (v : Volume F) (b brickX brickY brickZ : Int) : List F :=
  (loopRange (brickZ * b) (min ((brickZ + 1) * b) v.m_dim.z)).flatMap (fun z =>
    (loopRange (brickY * b) (min ((brickY + 1) * b) v.m_dim.y)).flatMap (fun y =>
      (loopRange (brickX * b) (min ((brickX + 1) * b) v.m_dim.x)).map (fun x =>
        v.voxelAt x y z)))

/-- The `(min, max)` pair of a direct scan of the in-bounds region of a logical brick; there is
none for an empty region. -/
def directScanMinMax (v : Volume F) (b brickX brickY brickZ : Int) : Option (Vec2 F) := do
  let lo ← minElement (fun a c => decide (a < c)) (brickRegionValues v b brickX brickY brickZ)
  let hi ← maxElement (fun a c => decide (a < c)) (brickRegionValues v b brickX brickY brickZ)
  pure ⟨lo, hi⟩

/-- The activity of a block with summary `minMax` in the modes other than Composite, as the
specification defines it: `min <= isoValue <= max`. -/
def isoActive (isoValue : F) (minMax : Vec2 F) : Bool :=
  decide (minMax.x ≤ isoValue) && decide (isoValue ≤ minMax.y)

/-- The class invariant of a gradient volume: one gradient voxel per voxel. -/
def GradientVolume.WellFormed (g : GradientVolume F) : Prop :=
  (g.m_data.length : Int) = g.m_dim.x * g.m_dim.y * g.m_dim.z

/-- The trilinear blend of the specification for one scalar quantity: the sum over
`i, j, k` in `{0, 1}` of `wx_i * wy_j * wz_k * a_ijk` with `w_0 = 1 - f` and `w_1 = f`; the
index `ijk` gives the offsets on the x, y and z axes. -/
def trilinearSum (fx fy fz a000 a001 a010 a011 a100 a101 a110 a111 : F) : F :=
  (1 - fx) * (1 - fy) * (1 - fz) * a000 + (1 - fx) * (1 - fy) * fz * a001
    + (1 - fx) * fy * (1 - fz) * a010 + (1 - fx) * fy * fz * a011
    + fx * (1 - fy) * (1 - fz) * a100 + fx * (1 - fy) * fz * a101
    + fx * fy * (1 - fz) * a110 + fx * fy * fz * a111

/-- The trilinear blend of eight gradient voxels: every direction component and the magnitude
are blended on their own. -/
def trilinearBlend (fx fy fz : F) (g000 g001 g010 g011 g100 g101 g110 g111 : GradientVoxel F) :
    GradientVoxel F :=
  ⟨⟨trilinearSum fx fy fz g000.dir.x g001.dir.x g010.dir.x g011.dir.x g100.dir.x g101.dir.x
        g110.dir.x g111.dir.x,
      trilinearSum fx fy fz g000.dir.y g001.dir.y g010.dir.y g011.dir.y g100.dir.y g101.dir.y
        g110.dir.y g111.dir.y,
      trilinearSum fx fy fz g000.dir.z g001.dir.z g010.dir.z g011.dir.z g100.dir.z g101.dir.z
        g110.dir.z g111.dir.z⟩,
    trilinearSum fx fy fz g000.magnitude g001.magnitude g010.magnitude g011.magnitude
      g100.magnitude g101.magnitude g110.magnitude g111.magnitude⟩

/-- The Catmull-Rom spline through `g1` and `g2` with neighbours `g0` and `g3`, at `t`. -/
def catmullRom (g0 g1 g2 g3 t : F) : F :=
  1 / 2 * (2 * g1 + (g2 - g0) * t + (2 * g0 - 5 * g1 + 4 * g2 - g3) * t ^ 2
    + (-g0 + 3 * g1 - 3 * g2 + g3) * t ^ 3)

/-- The call `getVoxel(x, y, z)` reads inside the volume: every index is within `[0, dims)` on
its axis, `reflectIndex` leaves it as it is, and the flat index is inside the data array, where
the call reads. -/
def ReadsInBounds (v : Volume F) (x y z : Int) : Prop :=
  (0 ≤ x ∧ x < v.m_dim.x) ∧ (0 ≤ y ∧ y < v.m_dim.y) ∧ (0 ≤ z ∧ z < v.m_dim.z)
    ∧ reflectIndex x (v.m_dim.x - 1) = x
    ∧ reflectIndex y (v.m_dim.y - 1) = y
    ∧ reflectIndex z (v.m_dim.z - 1) = z
    ∧ 0 ≤ flatIndex v.m_dim x y z
    ∧ flatIndex v.m_dim x y z < (v.m_data.length : Int)
    ∧ v.getVoxel x y z = readAt v.m_data (flatIndex v.m_dim x y z)

/-- The 3x3x3 volume whose voxel `(x, y, z)` has the value `x + 3 * (y + 3 * z)`, its flat
index. -/
def rampVolume : Volume F :=
  ⟨⟨3, 3, 3⟩,
    [0, 1, 2, 3, 4, 5, 6, 7, 8, 9, 10, 11, 12, 13, 14, 15, 16, 17, 18, 19, 20, 21, 22, 23, 24,
      25, 26],
    0, 26, List.replicate 27 1, InterpolationMode.NearestNeighbour⟩

end Float

/-! ## Concrete inputs -/

/-- A volume of a single voxel with value 7, as the constructor builds it from `{7}` and dims
`(1, 1, 1)`. -/
def unitVolume : Volume ℚ :=
  ⟨⟨1, 1, 1⟩, [7], 7, 7, [0, 0, 0, 0, 0, 0, 0, 1], InterpolationMode.NearestNeighbour⟩

/-- The gradient volume of `unitVolume`: its one voxel is on the boundary shell. -/
def unitGradient : GradientVolume ℚ :=
  ⟨⟨1, 1, 1⟩, [GradientVoxel.zero], 0, 0, InterpolationMode.NearestNeighbour⟩

/-- The 4x4x4 volume whose 64 voxels all have value 10. -/
def constVolume : Volume ℚ :=
  ⟨⟨4, 4, 4⟩, List.replicate 64 10, 10, 10, List.replicate 10 0 ++ [64],
    InterpolationMode.NearestNeighbour⟩

/-- The state in which `brickSizeChanged` calls `updateMinMax` for `constVolume` with brick
size 2 and bricking enabled. -/
def constBrickState : GPUVolume ℚ :=
  { GPUVolume.ofVolume constVolume with
    m_volumeConfig := ⟨2, true⟩
    m_brickSize := 2
    m_useBricking := true
    m_volumeDims := ⟨4, 4, 4⟩ }

/-- The transfer function that is opaque only at index 10: 256 colours, alpha 1 at index 10 and
0 elsewhere. -/
def opaqueAt10 : List (Vec4 ℚ) :=
  List.replicate 10 ⟨0, 0, 0, 0⟩ ++ [⟨1, 1, 1, 1⟩] ++ List.replicate 245 ⟨0, 0, 0, 0⟩

/-- A render configuration in Composite mode with the transfer function `opaqueAt10` and the
identity map from values to colour-map indices. -/
def compositeConfig : RenderConfig ℚ :=
  { renderMode := RenderMode.RenderComposite
    renderResolution := (512, 512)
    tfColorMap := opaqueAt10
    tfColorMapIndexStart := 0
    tfColorMapIndexRange := 256
    tfTexId := 0 }

/-- A render configuration in Iso mode with the default iso value 95. -/
def isoConfig : RenderConfig ℚ :=
  { compositeConfig with renderMode := RenderMode.RenderIso }

/-- The brick cache object of `constVolume` after `setVolumeConfig` with brick size 2 and
bricking enabled, before the first `brickSizeChanged`. -/
def constGPUVolume : GPUVolume ℚ :=
  (GPUVolume.ofVolume constVolume).setVolumeConfig ⟨2, true⟩

/-- A renderer over `constVolume` in Iso mode with block size 2 and empty space skipping
enabled, as filled in by the member initialisers: the vectors are empty, and the two members
without initialiser hold zeros. -/
def constRenderer : GPURenderer ℚ :=
  { m_pGPUVolume := constGPUVolume
    m_pVolume := constVolume
    m_renderConfig := isoConfig
    m_meshConfig := ⟨2, true⟩
    m_numBlocks3D := ⟨0, 0, 0⟩
    m_positions := []
    m_blockActive := []
    m_minMaxValues := []
    m_opacitySumTable := List.replicate 256 0 }

/-- The gradient volume of the ramp volume, with the magnitude of the centre voxel, the square
root of 91, rounded to 19/2: the centre voxel has the direction `(1, 3, 9)` and all other
voxels are on the boundary shell. -/
def rampGradient : GradientVolume ℚ :=
  ⟨⟨3, 3, 3⟩,
    List.replicate 13 GradientVoxel.zero ++ [⟨⟨1, 3, 9⟩, 19 / 2⟩]
      ++ List.replicate 13 GradientVoxel.zero,
    0, 19 / 2, InterpolationMode.NearestNeighbour⟩

section Float

variable {F : Type} [LinearOrderedField F] [FloorRing F]

/-! ## Helper lemmas -/

theorem anyLessThan_iff (a b : Vec3 F) :
    Vec3.anyLessThan a b = true ↔ a.x < b.x ∨ a.y < b.y ∨ a.z < b.z := by
  simp [Vec3.anyLessThan, or_assoc]

theorem anyGreaterThanEqual_iff (a b : Vec3 F) :
    Vec3.anyGreaterThanEqual a b = true ↔ b.x ≤ a.x ∨ b.y ≤ a.y ∨ b.z ≤ a.z := by
  simp [Vec3.anyGreaterThanEqual, or_assoc]

theorem flatIndex_bounds (dx dy dz x y z : Int) (hx : 0 ≤ x) (hxd : x < dx) (hy : 0 ≤ y)
    (hyd : y < dy) (hz : 0 ≤ z) (hzd : z < dz) :
    0 ≤ x + dx * (y + dy * z) ∧ x + dx * (y + dy * z) < dx * dy * dz := by
  have hdx : 0 < dx := by omega
  have hdy : 0 < dy := by omega
  have h1 : 0 ≤ dy * z := mul_nonneg hdy.le hz
  have h2 : dy * z ≤ dy * (dz - 1) := mul_le_mul_of_nonneg_left (by omega) hdy.le
  have h3 : 0 ≤ dx * (y + dy * z) := mul_nonneg hdx.le (by omega)
  have h4 : dx * (y + dy * z) ≤ dx * (dy * dz - 1) :=
    mul_le_mul_of_nonneg_left (by linarith) hdx.le
  constructor
  · omega
  · have h5 : dx * (dy * dz - 1) = dx * dy * dz - dx := by ring
    omega

theorem readAt_of_lt {α : Type} (data : List α) (i : Int) (h0 : 0 ≤ i)
    (hlt : i < (data.length : Int)) :
    ∃ a, readAt data i = some a ∧ data[i.toNat]? = some a := by
  have hn : i.toNat < data.length := by omega
  refine ⟨data[i.toNat], ?_, List.getElem?_eq_getElem hn⟩
  unfold readAt
  rw [if_neg (by omega)]
  exact List.getElem?_eq_getElem hn

theorem reflectIndex_range (idx maxIdx : Int) (hlo : -maxIdx ≤ idx) (hhi : idx ≤ 2 * maxIdx) :
    0 ≤ reflectIndex idx maxIdx ∧ reflectIndex idx maxIdx ≤ maxIdx := by
  unfold reflectIndex
  split_ifs <;> omega

theorem reflectIndex_of_inRange (idx maxIdx : Int) (h0 : 0 ≤ idx) (h1 : idx ≤ maxIdx) :
    reflectIndex idx maxIdx = idx := by
  unfold reflectIndex
  split_ifs <;> omega

theorem flatIndex_inj (dx dy x y z x' y' z' : Int) (hx : 0 ≤ x) (hxd : x < dx)
    (hx' : 0 ≤ x') (hxd' : x' < dx) (hy : 0 ≤ y) (hyd : y < dy) (hy' : 0 ≤ y') (hyd' : y' < dy)
    (h : x + dx * (y + dy * z) = x' + dx * (y' + dy * z')) : x = x' ∧ y = y' ∧ z = z' := by
  have key : ∀ (d a b a' b' : Int), 0 ≤ a → a < d → 0 ≤ a' → a' < d →
      a + d * b = a' + d * b' → a = a' ∧ b = b' := by
    intro d a b a' b' ha had ha' had' hab
    have h1 : (a + d * b) % d = a := by
      rw [Int.add_mul_emod_self_left]; exact Int.emod_eq_of_lt ha had
    have h2 : (a' + d * b') % d = a' := by
      rw [Int.add_mul_emod_self_left]; exact Int.emod_eq_of_lt ha' had'
    have haa : a = a' := by rw [← h1, ← h2, hab]
    refine ⟨haa, ?_⟩
    subst haa
    have hd : d ≠ 0 := by omega
    exact mul_left_cancel₀ hd (by linarith)
  obtain ⟨e1, e2⟩ := key dx x _ x' _ hx hxd hx' hxd' h
  obtain ⟨e3, e4⟩ := key dy y z y' z' hy hyd hy' hyd' e2
  exact ⟨e1, e3, e4⟩

theorem foldlM_accum {σ ι : Type} (f : σ → ι → Option σ) (W : List ι → σ → Prop) :
    ∀ (l done : List ι) (s : σ),
      (∀ (d : List ι) (t : σ) (i : ι), i ∈ l → W d t →
        ∃ t', f t i = some t' ∧ W (d ++ [i]) t') →
      W done s → ∃ s', l.foldlM f s = some s' ∧ W (done ++ l) s' := by
  intro l
  induction l with
  | nil =>
    intro done s _ hW
    exact ⟨s, rfl, by simpa using hW⟩
  | cons i l ih =>
    intro done s hstep hW
    obtain ⟨t, ht, hWt⟩ := hstep done s i (List.mem_cons_self _ _) hW
    obtain ⟨s', hs', hWs'⟩ :=
      ih (done ++ [i]) t (fun d t' j hj => hstep d t' j (List.mem_cons_of_mem _ hj)) hWt
    refine ⟨s', ?_, by simpa using hWs'⟩
    rw [List.foldlM_cons, ht]
    exact hs'

theorem mem_loopRange (lo hi i : Int) : i ∈ loopRange lo hi ↔ lo ≤ i ∧ i < hi := by
  unfold loopRange
  simp only [List.mem_map, List.mem_range]
  constructor
  · rintro ⟨k, hk, rfl⟩
    omega
  · rintro ⟨h1, h2⟩
    exact ⟨(i - lo).toNat, by omega, by omega⟩

theorem mem_visitedVoxels (dim : IVec3) (x y z : Int) :
    (x, y, z) ∈ visitedVoxels dim ↔
      (1 ≤ x ∧ x < dim.x - 1) ∧ (1 ≤ y ∧ y < dim.y - 1) ∧ (1 ≤ z ∧ z < dim.z - 1) := by
  unfold visitedVoxels
  simp only [List.mem_flatMap, List.mem_map, mem_loopRange, Prod.mk.injEq]
  constructor
  · rintro ⟨z', hz, y', hy, x', hx, rfl, rfl, rfl⟩
    exact ⟨hx, hy, hz⟩
  · rintro ⟨hx, hy, hz⟩
    exact ⟨z, hz, y, hy, x, hx, rfl, rfl, rfl⟩

theorem getVoxel_inBox (v : Volume F) (hwf : v.WellFormed) (x y z : Int) (hx : 0 ≤ x)
    (hxd : x < v.m_dim.x) (hy : 0 ≤ y) (hyd : y < v.m_dim.y) (hz : 0 ≤ z) (hzd : z < v.m_dim.z) :
    v.getVoxel x y z = some (v.voxelAt x y z)
      ∧ readAt v.m_data (flatIndex v.m_dim x y z) = some (v.voxelAt x y z) := by
  have hb := flatIndex_bounds v.m_dim.x v.m_dim.y v.m_dim.z x y z hx hxd hy hyd hz hzd
  unfold Volume.WellFormed at hwf
  rw [← hwf] at hb
  obtain ⟨a, ha, _⟩ := readAt_of_lt v.m_data _ hb.1 hb.2
  have hr : readAt v.m_data (flatIndex v.m_dim x y z) = some a := ha
  have hv : v.voxelAt x y z = a := by
    unfold Volume.voxelAt
    rw [hr]
    rfl
  refine ⟨?_, by rw [hv]; exact hr⟩
  unfold Volume.getVoxel
  simp only [reflectIndex_of_inRange x (v.m_dim.x - 1) hx (by omega),
    reflectIndex_of_inRange y (v.m_dim.y - 1) hy (by omega),
    reflectIndex_of_inRange z (v.m_dim.z - 1) hz (by omega)]
  rw [hv]
  exact ha

theorem writeAt_of_lt {α : Type} (data : List α) (i : Int) (a : α) (h0 : 0 ≤ i)
    (hlt : i < (data.length : Int)) : writeAt data i a = some (data.set i.toNat a) := by
  unfold writeAt
  rw [if_neg (by omega), if_pos (by omega)]

theorem readAt_set_self {α : Type} (data : List α) (i : Int) (a : α) (h0 : 0 ≤ i)
    (hlt : i < (data.length : Int)) : readAt (data.set i.toNat a) i = some a := by
  unfold readAt
  rw [if_neg (by omega)]
  exact List.getElem?_set_self (by omega)

theorem readAt_set_ne {α : Type} (data : List α) (i j : Int) (a : α) (h0 : 0 ≤ i)
    (hne : i ≠ j) : readAt (data.set i.toNat a) j = readAt data j := by
  unfold readAt
  by_cases hj : j < 0
  · rw [if_pos hj, if_pos hj]
  · rw [if_neg hj, if_neg hj]
    exact List.getElem?_set_ne (by omega)

theorem gradientStep_spec (sqrt : F → F) (v : Volume F) (hwf : v.WellFormed)
    (done : List (Int × Int × Int)) (out : List (GradientVoxel F)) (x y z : Int)
    (hx : 1 ≤ x ∧ x < v.m_dim.x - 1) (hy : 1 ≤ y ∧ y < v.m_dim.y - 1)
    (hz : 1 ≤ z ∧ z < v.m_dim.z - 1) (hW : GradientFilled sqrt v done out) :
    ∃ out', gradientStep sqrt v v.m_dim z y out x = some out'
      ∧ GradientFilled sqrt v (done ++ [(x, y, z)]) out' := by
  obtain ⟨hlen, hfill⟩ := hW
  have r1 := (getVoxel_inBox v hwf (x + 1) y z (by omega) (by omega) (by omega) (by omega)
    (by omega) (by omega)).1
  have r2 := (getVoxel_inBox v hwf (x - 1) y z (by omega) (by omega) (by omega) (by omega)
    (by omega) (by omega)).1
  have r3 := (getVoxel_inBox v hwf x (y + 1) z (by omega) (by omega) (by omega) (by omega)
    (by omega) (by omega)).1
  have r4 := (getVoxel_inBox v hwf x (y - 1) z (by omega) (by omega) (by omega) (by omega)
    (by omega) (by omega)).1
  have r5 := (getVoxel_inBox v hwf x y (z + 1) (by omega) (by omega) (by omega) (by omega)
    (by omega) (by omega)).1
  have r6 := (getVoxel_inBox v hwf x y (z - 1) (by omega) (by omega) (by omega) (by omega)
    (by omega) (by omega)).1
  have hb := flatIndex_bounds v.m_dim.x v.m_dim.y v.m_dim.z x y z (by omega) (by omega)
    (by omega) (by omega) (by omega) (by omega)
  rw [← hlen] at hb
  have hstep : gradientStep sqrt v v.m_dim z y out x
      = some (out.set (flatIndex v.m_dim x y z).toNat (centralDifference sqrt v x y z)) := by
    unfold gradientStep
    simp only [r1, r2, r3, r4, r5, r6, Option.bind_eq_bind, Option.some_bind]
    exact writeAt_of_lt out _ _ hb.1 hb.2
  refine ⟨_, hstep, ?_, ?_⟩
  · rw [List.length_set]
    exact hlen
  · intro x' y' z' hx0 hx1 hy0 hy1 hz0 hz1
    by_cases e : (x', y', z') = (x, y, z)
    · simp only [Prod.mk.injEq] at e
      obtain ⟨rfl, rfl, rfl⟩ := e
      refine ⟨fun _ => readAt_set_self out _ _ hb.1 hb.2, fun hn => ?_⟩
      exact absurd (List.mem_append_right done (List.mem_singleton_self _)) hn
    · have hne : flatIndex v.m_dim x y z ≠ flatIndex v.m_dim x' y' z' := by
        intro hflat
        obtain ⟨e1, e2, e3⟩ := flatIndex_inj v.m_dim.x v.m_dim.y x y z x' y' z' (by omega)
          (by omega) hx0 hx1 (by omega) (by omega) hy0 hy1 hflat
        exact e (by rw [e1, e2, e3])
      rw [readAt_set_ne out (flatIndex v.m_dim x y z) _ _ hb.1 hne]
      have hmem : (x', y', z') ∈ done ++ [(x, y, z)] ↔ (x', y', z') ∈ done := by
        rw [List.mem_append, List.mem_singleton]
        exact or_iff_left e
      rw [hmem]
      exact hfill x' y' z' hx0 hx1 hy0 hy1 hz0 hz1

theorem computeGradientVolume_spec (sqrt : F → F) (v : Volume F) (hwf : v.WellFormed) :
    ∃ out, computeGradientVolume sqrt v = some out
      ∧ GradientFilled sqrt v (visitedVoxels v.m_dim) out := by
  have hn : 0 ≤ v.m_dim.x * v.m_dim.y * v.m_dim.z := by
    unfold Volume.WellFormed at hwf
    rw [← hwf]
    exact Int.natCast_nonneg _
  have hinit : GradientFilled sqrt v []
      (List.replicate (v.m_dim.x * v.m_dim.y * v.m_dim.z).toNat GradientVoxel.zero) := by
    refine ⟨by rw [List.length_replicate]; omega, ?_⟩
    intro x y z hx0 hx1 hy0 hy1 hz0 hz1
    have hb := flatIndex_bounds v.m_dim.x v.m_dim.y v.m_dim.z x y z hx0 hx1 hy0 hy1 hz0 hz1
    refine ⟨fun h => absurd h (List.not_mem_nil _), fun _ => ?_⟩
    unfold readAt flatIndex
    rw [if_neg (by omega), List.getElem?_replicate, if_pos (by omega)]
  have hz := foldlM_accum
    (fun out z =>
      (loopRange 1 (v.m_dim.y - 1)).foldlM (fun out y =>
        (loopRange 1 (v.m_dim.x - 1)).foldlM (fun out x =>
          gradientStep sqrt v v.m_dim z y out x) out) out)
    (fun dz out => GradientFilled sqrt v
      (dz.flatMap (fun z => (loopRange 1 (v.m_dim.y - 1)).flatMap (fun y =>
        (loopRange 1 (v.m_dim.x - 1)).map (fun x => (x, y, z))))) out)
    (loopRange 1 (v.m_dim.z - 1)) []
    (List.replicate (v.m_dim.x * v.m_dim.y * v.m_dim.z).toNat GradientVoxel.zero) ?_ hinit
  · obtain ⟨out, hout, hW⟩ := hz
    refine ⟨out, ?_, by simpa [visitedVoxels] using hW⟩
    simp only [computeGradientVolume, allocate, Volume.dims, if_neg (not_lt.mpr hn),
      Option.bind_eq_bind, Option.some_bind]
    exact hout
  · intro dz t z hzmem hWz
    have hy := foldlM_accum
      (fun out y =>
        (loopRange 1 (v.m_dim.x - 1)).foldlM (fun out x =>
          gradientStep sqrt v v.m_dim z y out x) out)
      (fun dy out => GradientFilled sqrt v
        (dz.flatMap (fun z => (loopRange 1 (v.m_dim.y - 1)).flatMap (fun y =>
            (loopRange 1 (v.m_dim.x - 1)).map (fun x => (x, y, z))))
          ++ dy.flatMap (fun y => (loopRange 1 (v.m_dim.x - 1)).map (fun x => (x, y, z)))) out)
      (loopRange 1 (v.m_dim.y - 1)) [] t ?_ (by simpa using hWz)
    · obtain ⟨t', ht', hW'⟩ := hy
      exact ⟨t', ht', by simpa [List.flatMap_append] using hW'⟩
    · intro dy t y hymem hWy
      have hx := foldlM_accum
        (fun out x => gradientStep sqrt v v.m_dim z y out x)
        (fun dx out => GradientFilled sqrt v
          ((dz.flatMap (fun z => (loopRange 1 (v.m_dim.y - 1)).flatMap (fun y =>
              (loopRange 1 (v.m_dim.x - 1)).map (fun x => (x, y, z))))
            ++ dy.flatMap (fun y => (loopRange 1 (v.m_dim.x - 1)).map (fun x => (x, y, z))))
            ++ dx.map (fun x => (x, y, z))) out)
        (loopRange 1 (v.m_dim.x - 1)) [] t ?_ (by simpa using hWy)
      · obtain ⟨t', ht', hW'⟩ := hx
        exact ⟨t', ht', by simpa [List.flatMap_append, List.append_assoc] using hW'⟩
      · intro dx t x hxmem hWx
        obtain ⟨t', ht', hW'⟩ := gradientStep_spec sqrt v hwf _ t x y z
          ((mem_loopRange _ _ _).mp hxmem) ((mem_loopRange _ _ _).mp hymem)
          ((mem_loopRange _ _ _).mp hzmem) hWx
        exact ⟨t', ht', by simpa [List.map_append, List.append_assoc] using hW'⟩

theorem loopRange_eq_nil (lo hi : Int) (h : hi ≤ lo) : loopRange lo hi = [] := by
  unfold loopRange
  have h0 : (hi - lo).toNat = 0 := by omega
  rw [h0]
  rfl

theorem foldlM_const {σ ι : Type} (f : σ → ι → Option σ) (l : List ι)
    (h : ∀ s i, i ∈ l → f s i = some s) (s : σ) : l.foldlM f s = some s := by
  induction l with
  | nil => rfl
  | cons i l ih =>
    rw [List.foldlM_cons, h s i (List.mem_cons_self _ _)]
    exact ih (fun s j hj => h s j (List.mem_cons_of_mem _ hj))

theorem computeGradientVolume_thin (sqrt : F → F) (v : Volume F)
    (hn : 0 ≤ v.m_dim.x * v.m_dim.y * v.m_dim.z)
    (h : v.m_dim.x ≤ 2 ∨ v.m_dim.y ≤ 2 ∨ v.m_dim.z ≤ 2) :
    computeGradientVolume sqrt v
      = some (List.replicate (v.m_dim.x * v.m_dim.y * v.m_dim.z).toNat GradientVoxel.zero) := by
  simp only [computeGradientVolume, allocate, Volume.dims, if_neg (not_lt.mpr hn),
    Option.bind_eq_bind, Option.some_bind]
  apply foldlM_const
  intro s z _
  apply foldlM_const
  intro s y _
  rcases h with h | h | h
  · rw [loopRange_eq_nil 1 (v.m_dim.x - 1) (by omega)]
    rfl
  · rename_i hy
    exact absurd ((mem_loopRange _ _ _).mp hy) (by omega)
  · rename_i hz _
    exact absurd ((mem_loopRange _ _ _).mp hz) (by omega)

theorem foldl_max_spec {α : Type} (key : α → F) (rest : List α) (a : α) :
    rest.foldl (fun largest cur => if decide (key largest < key cur) then cur else largest) a
        ∈ a :: rest
      ∧ ∀ h ∈ a :: rest, key h ≤ key (rest.foldl
          (fun largest cur => if decide (key largest < key cur) then cur else largest) a) := by
  induction rest generalizing a with
  | nil => simp
  | cons b rest ih =>
    rw [List.foldl_cons]
    obtain ⟨hmem, hle⟩ := ih (if decide (key a < key b) then b else a)
    constructor
    · rcases List.mem_cons.mp hmem with h | h
      · rw [h]
        split_ifs <;> simp
      · exact List.mem_cons_of_mem _ (List.mem_cons_of_mem _ h)
    · intro h hh
      have hstart := hle _ (List.mem_cons_self _ _)
      rcases List.mem_cons.mp hh with rfl | hh
      · refine le_trans ?_ hstart
        split_ifs with hc
        · exact le_of_lt (of_decide_eq_true hc)
        · exact le_refl _
      · rcases List.mem_cons.mp hh with rfl | hh
        · refine le_trans ?_ hstart
          split_ifs with hc
          · exact le_refl _
          · exact not_lt.mp (fun hlt => hc (decide_eq_true hlt))
        · exact hle _ (List.mem_cons_of_mem _ hh)

theorem foldl_min_spec {α : Type} (key : α → F) (rest : List α) (a : α) :
    rest.foldl (fun smallest cur => if decide (key cur < key smallest) then cur else smallest) a
        ∈ a :: rest
      ∧ ∀ h ∈ a :: rest, key (rest.foldl
          (fun smallest cur => if decide (key cur < key smallest) then cur else smallest) a)
            ≤ key h := by
  induction rest generalizing a with
  | nil => simp
  | cons b rest ih =>
    rw [List.foldl_cons]
    obtain ⟨hmem, hle⟩ := ih (if decide (key b < key a) then b else a)
    constructor
    · rcases List.mem_cons.mp hmem with h | h
      · rw [h]
        split_ifs <;> simp
      · exact List.mem_cons_of_mem _ (List.mem_cons_of_mem _ h)
    · intro h hh
      have hstart := hle _ (List.mem_cons_self _ _)
      rcases List.mem_cons.mp hh with rfl | hh
      · refine le_trans hstart ?_
        split_ifs with hc
        · exact le_of_lt (of_decide_eq_true hc)
        · exact le_refl _
      · rcases List.mem_cons.mp hh with rfl | hh
        · refine le_trans hstart ?_
          split_ifs with hc
          · exact le_refl _
          · exact not_lt.mp (fun hlt => hc (decide_eq_true hlt))
        · exact hle _ (List.mem_cons_of_mem _ hh)

theorem computeMaxMagnitude_spec (data : List (GradientVoxel F)) (hne : data ≠ []) :
    ∃ m, computeMaxMagnitude data = some m ∧ (∃ g ∈ data, g.magnitude = m)
      ∧ ∀ g ∈ data, g.magnitude ≤ m := by
  cases data with
  | nil => exact absurd rfl hne
  | cons a rest =>
    obtain ⟨hmem, hle⟩ := foldl_max_spec (fun g : GradientVoxel F => g.magnitude) rest a
    exact ⟨_, rfl, ⟨_, hmem, rfl⟩, hle⟩

theorem computeMinMagnitude_spec (data : List (GradientVoxel F)) (hne : data ≠ []) :
    ∃ m, computeMinMagnitude data = some m ∧ (∃ g ∈ data, g.magnitude = m)
      ∧ ∀ g ∈ data, m ≤ g.magnitude := by
  cases data with
  | nil => exact absurd rfl hne
  | cons a rest =>
    obtain ⟨hmem, hle⟩ := foldl_min_spec (fun g : GradientVoxel F => g.magnitude) rest a
    exact ⟨_, rfl, ⟨_, hmem, rfl⟩, hle⟩

/-! ## Theorems -/

/-- C1: for a well-formed volume and an exact square root, `computeGradientVolume` returns an
array that holds at the flat index of every interior voxel `(x, y, z)` the direction
`((V(x+1,y,z)-V(x-1,y,z))/2, (V(x,y+1,z)-V(x,y-1,z))/2, (V(x,y,z+1)-V(x,y,z-1))/2)` and a
non-negative magnitude whose square is the sum of the squared components. -/
theorem computeGradientVolume_interior (sqrt : F → F)
    (hsqrt : ∀ a : F, 0 ≤ a → 0 ≤ sqrt a ∧ sqrt a * sqrt a = a)
    (v : Volume F) (hwf : v.WellFormed) :
    ∃ out, computeGradientVolume sqrt v = some out
      ∧ ∀ x y z : Int, 1 ≤ x → x < v.m_dim.x - 1 → 1 ≤ y → y < v.m_dim.y - 1 →
        1 ≤ z → z < v.m_dim.z - 1 →
        ∃ xp xm yp ym zp zm m : F,
          readAt v.m_data (flatIndex v.m_dim (x + 1) y z) = some xp
            ∧ readAt v.m_data (flatIndex v.m_dim (x - 1) y z) = some xm
            ∧ readAt v.m_data (flatIndex v.m_dim x (y + 1) z) = some yp
            ∧ readAt v.m_data (flatIndex v.m_dim x (y - 1) z) = some ym
            ∧ readAt v.m_data (flatIndex v.m_dim x y (z + 1)) = some zp
            ∧ readAt v.m_data (flatIndex v.m_dim x y (z - 1)) = some zm
            ∧ readAt out (flatIndex v.m_dim x y z)
              = some ⟨⟨(xp - xm) / 2, (yp - ym) / 2, (zp - zm) / 2⟩, m⟩
            ∧ 0 ≤ m
            ∧ m * m = (xp - xm) / 2 * ((xp - xm) / 2) + (yp - ym) / 2 * ((yp - ym) / 2)
              + (zp - zm) / 2 * ((zp - zm) / 2) := by
  obtain ⟨out, hout, _, hfill⟩ := computeGradientVolume_spec sqrt v hwf
  refine ⟨out, hout, ?_⟩
  intro x y z hx0 hx1 hy0 hy1 hz0 hz1
  have hmem : (x, y, z) ∈ visitedVoxels v.m_dim :=
    (mem_visitedVoxels v.m_dim x y z).mpr ⟨⟨hx0, hx1⟩, ⟨hy0, hy1⟩, ⟨hz0, hz1⟩⟩
  have hread := (hfill x y z (by omega) (by omega) (by omega) (by omega) (by omega)
    (by omega)).1 hmem
  have hs := hsqrt ((v.voxelAt (x + 1) y z - v.voxelAt (x - 1) y z) / 2
      * ((v.voxelAt (x + 1) y z - v.voxelAt (x - 1) y z) / 2)
    + (v.voxelAt x (y + 1) z - v.voxelAt x (y - 1) z) / 2
      * ((v.voxelAt x (y + 1) z - v.voxelAt x (y - 1) z) / 2)
    + (v.voxelAt x y (z + 1) - v.voxelAt x y (z - 1)) / 2
      * ((v.voxelAt x y (z + 1) - v.voxelAt x y (z - 1)) / 2))
    (add_nonneg (add_nonneg (mul_self_nonneg _) (mul_self_nonneg _)) (mul_self_nonneg _))
  exact ⟨_, _, _, _, _, _, _,
    (getVoxel_inBox v hwf (x + 1) y z (by omega) (by omega) (by omega) (by omega)
      (by omega) (by omega)).2,
    (getVoxel_inBox v hwf (x - 1) y z (by omega) (by omega) (by omega) (by omega)
      (by omega) (by omega)).2,
    (getVoxel_inBox v hwf x (y + 1) z (by omega) (by omega) (by omega) (by omega)
      (by omega) (by omega)).2,
    (getVoxel_inBox v hwf x (y - 1) z (by omega) (by omega) (by omega) (by omega)
      (by omega) (by omega)).2,
    (getVoxel_inBox v hwf x y (z + 1) (by omega) (by omega) (by omega) (by omega)
      (by omega) (by omega)).2,
    (getVoxel_inBox v hwf x y (z - 1) (by omega) (by omega) (by omega) (by omega)
      (by omega) (by omega)).2,
    hread, hs.1, hs.2⟩

/-- Witness of C1: the ramp volume over the real numbers with the real square root; the centre
voxel `(1, 1, 1)` gets the direction `(1, 3, 9)` and a magnitude of square 91. -/
theorem computeGradientVolume_interior_witness :
    ∃ out m, computeGradientVolume Real.sqrt (rampVolume : Volume ℝ) = some out
      ∧ readAt out (flatIndex ⟨3, 3, 3⟩ 1 1 1) = some ⟨⟨1, 3, 9⟩, m⟩
      ∧ 0 ≤ m ∧ m * m = 91 := by
  obtain ⟨out, hout, h⟩ := computeGradientVolume_interior Real.sqrt
    (fun a ha => ⟨Real.sqrt_nonneg a, Real.mul_self_sqrt ha⟩) (rampVolume : Volume ℝ)
    (by simp [Volume.WellFormed, rampVolume])
  obtain ⟨xp, xm, yp, ym, zp, zm, m, h1, h2, h3, h4, h5, h6, hread, hm0, hmm⟩ :=
    h 1 1 1 (by decide) (by decide) (by decide) (by decide) (by decide) (by decide)
  simp [rampVolume, readAt, flatIndex] at h1 h2 h3 h4 h5 h6
  subst h1 h2 h3 h4 h5 h6
  refine ⟨out, m, hout, ?_, hm0, ?_⟩
  · rw [show (rampVolume : Volume ℝ).m_dim = ⟨3, 3, 3⟩ from rfl] at hread
    rw [hread]
    norm_num
  · rw [hmm]
    norm_num

/-- C2: for a well-formed volume, `computeGradientVolume` returns an array that holds the zero
voxel at the flat index of every voxel of the boundary shell, and when some dimension is at
most 2 every entry of the array is the zero voxel. -/
theorem computeGradientVolume_boundary (sqrt : F → F) (v : Volume F) (hwf : v.WellFormed) :
    ∃ out, computeGradientVolume sqrt v = some out
      ∧ (∀ x y z : Int, 0 ≤ x → x < v.m_dim.x → 0 ≤ y → y < v.m_dim.y → 0 ≤ z → z < v.m_dim.z →
          (x = 0 ∨ x = v.m_dim.x - 1 ∨ y = 0 ∨ y = v.m_dim.y - 1 ∨ z = 0 ∨ z = v.m_dim.z - 1) →
          readAt out (flatIndex v.m_dim x y z) = some ⟨⟨0, 0, 0⟩, 0⟩)
      ∧ ((v.m_dim.x ≤ 2 ∨ v.m_dim.y ≤ 2 ∨ v.m_dim.z ≤ 2) →
          out = List.replicate (v.m_dim.x * v.m_dim.y * v.m_dim.z).toNat ⟨⟨0, 0, 0⟩, 0⟩) := by
  obtain ⟨out, hout, _, hfill⟩ := computeGradientVolume_spec sqrt v hwf
  refine ⟨out, hout, ?_, ?_⟩
  · intro x y z hx0 hx1 hy0 hy1 hz0 hz1 hb
    have hnot : (x, y, z) ∉ visitedVoxels v.m_dim := by
      rw [mem_visitedVoxels]
      omega
    exact (hfill x y z hx0 hx1 hy0 hy1 hz0 hz1).2 hnot
  · intro hthin
    have hn : 0 ≤ v.m_dim.x * v.m_dim.y * v.m_dim.z := by
      unfold Volume.WellFormed at hwf
      rw [← hwf]
      exact Int.natCast_nonneg _
    have h := computeGradientVolume_thin sqrt v hn hthin
    rw [hout] at h
    exact Option.some.inj h

/-- Witness of C2: the corner voxel `(0, 0, 0)` of the ramp volume, and the one-voxel volume,
whose dimensions are all below 3. -/
theorem computeGradientVolume_boundary_witness :
    (∃ out, computeGradientVolume (fun a => a) (rampVolume : Volume ℚ) = some out
        ∧ readAt out (flatIndex ⟨3, 3, 3⟩ 0 0 0) = some ⟨⟨0, 0, 0⟩, 0⟩)
      ∧ computeGradientVolume (fun a => a) unitVolume = some [⟨⟨0, 0, 0⟩, 0⟩] := by
  constructor
  · obtain ⟨out, hout, h, _⟩ := computeGradientVolume_boundary (fun a => a)
      (rampVolume : Volume ℚ) (by simp [Volume.WellFormed, rampVolume])
    exact ⟨out, hout, h 0 0 0 (by decide) (by decide) (by decide) (by decide) (by decide)
      (by decide) (Or.inl rfl)⟩
  · obtain ⟨out, hout, _, h⟩ := computeGradientVolume_boundary (fun a => a) unitVolume
      (by simp [Volume.WellFormed, unitVolume])
    rw [hout, h (Or.inl (by decide))]
    rfl

/-- C3: for a well-formed volume with at least one voxel the constructor of `GradientVolume`
succeeds, every stored voxel has its magnitude between `minMagnitude()` and `maxMagnitude()`,
and both bounds are the magnitude of a stored voxel. -/
theorem gradientVolume_magnitude_range (sqrt : F → F) (v : Volume F) (hwf : v.WellFormed)
    (hpos : 1 ≤ v.m_dim.x * v.m_dim.y * v.m_dim.z) :
    ∃ gv, GradientVolume.ofVolume sqrt v = some gv
      ∧ computeGradientVolume sqrt v = some gv.m_data
      ∧ (∀ g ∈ gv.m_data, gv.minMagnitude ≤ g.magnitude ∧ g.magnitude ≤ gv.maxMagnitude)
      ∧ (∃ g ∈ gv.m_data, g.magnitude = gv.minMagnitude)
      ∧ (∃ g ∈ gv.m_data, g.magnitude = gv.maxMagnitude) := by
  obtain ⟨out, hout, hlen, _⟩ := computeGradientVolume_spec sqrt v hwf
  have hne : out ≠ [] := by
    intro h
    rw [h] at hlen
    have h0 : (([] : List (GradientVoxel F)).length : Int) = 0 := rfl
    rw [h0] at hlen
    omega
  obtain ⟨lo, hlo, hloMem, hloLe⟩ := computeMinMagnitude_spec out hne
  obtain ⟨hi, hhi, hhiMem, hhiLe⟩ := computeMaxMagnitude_spec out hne
  refine ⟨⟨v.dims, out, lo, hi, InterpolationMode.NearestNeighbour⟩, ?_, hout,
    fun g hg => ⟨hloLe g hg, hhiLe g hg⟩, hloMem, hhiMem⟩
  simp only [GradientVolume.ofVolume, hout, hlo, hhi, Option.bind_eq_bind, Option.some_bind]
  rfl

/-- Witness of C3: the ramp volume, 27 voxels. -/
theorem gradientVolume_magnitude_range_witness :
    ∃ gv, GradientVolume.ofVolume (fun a => a) (rampVolume : Volume ℚ) = some gv
      ∧ (∀ g ∈ gv.m_data, gv.minMagnitude ≤ g.magnitude ∧ g.magnitude ≤ gv.maxMagnitude)
      ∧ (∃ g ∈ gv.m_data, g.magnitude = gv.minMagnitude)
      ∧ (∃ g ∈ gv.m_data, g.magnitude = gv.maxMagnitude) := by
  obtain ⟨gv, h1, _, h2, h3, h4⟩ := gradientVolume_magnitude_range (fun a => a)
    (rampVolume : Volume ℚ) (by simp [Volume.WellFormed, rampVolume]) (by decide)
  exact ⟨gv, h1, h2, h3, h4⟩

/-- C5, evaluated on the gradient volume of the one-voxel volume at the coordinate
`(0, 0, 1/2)`: the rounded index is `(0, 0, 1)`, outside the volume on the z axis, and
`getGradientNearestNeighbor` passes its guard and reads entry 1 of the one-entry voxel array
instead of returning the zero voxel. -/
theorem nearestNeighbor_reads_past_end (sqrt : ℚ → ℚ) :
    GradientVolume.ofVolume sqrt unitVolume = some unitGradient
      ∧ Int.floor ((1 / 2 : ℚ) + 1 / 2) = 1
      ∧ unitGradient.m_data.length = 1
      ∧ unitGradient.getGradientNearestNeighbor ⟨0, 0, 1 / 2⟩ = none := by
  have hfl : Int.floor ((1 / 2 : ℚ) + 1 / 2) = 1 := by
    rw [Int.floor_eq_iff]; norm_num
  have hz : truncToInt ((1 / 2 : ℚ) + 1 / 2) = 1 := by
    simp only [truncToInt, hfl]
    norm_num
  have h0 : truncToInt ((0 : ℚ) + 1 / 2) = 0 := by
    have h : Int.floor ((0 : ℚ) + 1 / 2) = 0 := by
      rw [Int.floor_eq_iff]; norm_num
    simp only [truncToInt, h]
    norm_num
  refine ⟨?_, hfl, rfl, ?_⟩
  · rfl
  · have hguard : (Vec3.anyLessThan (⟨0, 0, 1 / 2⟩ : Vec3 ℚ) (Vec3.splat 0)
        || Vec3.anyGreaterThanEqual (⟨0, 0, 1 / 2⟩ : Vec3 ℚ)
          (Vec3.ofIVec3 unitGradient.m_dim)) = false := by
      rw [Bool.eq_false_iff, Ne, Bool.or_eq_true, anyLessThan_iff, anyGreaterThanEqual_iff]
      simp only [Vec3.splat, Vec3.ofIVec3, unitGradient]
      norm_num
    unfold GradientVolume.getGradientNearestNeighbor
    rw [hguard]
    simp only [hz, h0]
    rfl

/-- C4: linear interpolation returns its left operand at factor 0 and its right operand at
factor 1, for gradient voxels (direction and magnitude) and for scalars. -/
theorem linearInterpolate_endpoints (g0 g1 : GradientVoxel F) (a b : F) :
    GradientVolume.linearInterpolate g0 g1 0 = g0
      ∧ GradientVolume.linearInterpolate g0 g1 1 = g1
      ∧ Volume.linearInterpolate a b 0 = a
      ∧ Volume.linearInterpolate a b 1 = b := by
  obtain ⟨⟨x0, y0, z0⟩, m0⟩ := g0
  obtain ⟨⟨x1, y1, z1⟩, m1⟩ := g1
  simp [GradientVolume.linearInterpolate, Volume.linearInterpolate, Vec3.add, Vec3.scale]

/-- C6: when some component of the coordinate is negative or at least the dimension on its
axis, both gradient samplers return the zero voxel, whatever the voxel array holds (so no
voxel is read and the call does not fail). -/
theorem getGradient_outOfRange_zero (g : GradientVolume F) (coord : Vec3 F)
    (data : List (GradientVoxel F))
    (h : coord.x < 0 ∨ coord.y < 0 ∨ coord.z < 0
      ∨ (g.m_dim.x : F) ≤ coord.x ∨ (g.m_dim.y : F) ≤ coord.y ∨ (g.m_dim.z : F) ≤ coord.z) :
    GradientVolume.getGradientNearestNeighbor { g with m_data := data } coord
        = some ⟨⟨0, 0, 0⟩, 0⟩
      ∧ GradientVolume.getGradientLinearInterpolate { g with m_data := data } coord
        = some ⟨⟨0, 0, 0⟩, 0⟩ := by
  have hguard : (Vec3.anyLessThan coord (Vec3.splat 0)
      || Vec3.anyGreaterThanEqual coord (Vec3.ofIVec3 g.m_dim)) = true := by
    rw [Bool.or_eq_true, anyLessThan_iff, anyGreaterThanEqual_iff]
    simp only [Vec3.splat, Vec3.ofIVec3]
    tauto
  exact ⟨if_pos hguard, if_pos hguard⟩

/-- Witness of C6: the coordinate `(-1, 0, 0)` in a 1x1x1 gradient volume, with the voxel array
replaced by the empty one. -/
theorem getGradient_outOfRange_zero_witness :
    ((-1 : ℚ) < 0)
      ∧ GradientVolume.getGradientNearestNeighbor { unitGradient with m_data := [] } ⟨-1, 0, 0⟩
        = some ⟨⟨0, 0, 0⟩, 0⟩
      ∧ GradientVolume.getGradientLinearInterpolate { unitGradient with m_data := [] } ⟨-1, 0, 0⟩
        = some ⟨⟨0, 0, 0⟩, 0⟩ :=
  ⟨by norm_num, getGradient_outOfRange_zero unitGradient ⟨-1, 0, 0⟩ [] (Or.inl (by norm_num))⟩

/-- C8: both dispatchers throw exactly when the mode is none of `NearestNeighbour`, `Linear`,
`Cubic`; for each of the three modes they return the result of the matching sampler, the
gradient dispatcher answering `Cubic` with the linear sampler. -/
theorem interpolate_dispatch (v : Volume F) (g : GradientVolume F) (coord : Vec3 F) :
    (v.getSampleInterpolate coord = Except.error StdException.mk ↔
        (v.interpolationMode ≠ InterpolationMode.NearestNeighbour
          ∧ v.interpolationMode ≠ InterpolationMode.Linear
          ∧ v.interpolationMode ≠ InterpolationMode.Cubic))
      ∧ (g.getGradientInterpolate coord = Except.error StdException.mk ↔
        (g.interpolationMode ≠ InterpolationMode.NearestNeighbour
          ∧ g.interpolationMode ≠ InterpolationMode.Linear
          ∧ g.interpolationMode ≠ InterpolationMode.Cubic))
      ∧ (v.interpolationMode = InterpolationMode.NearestNeighbour →
        v.getSampleInterpolate coord
          = Except.ok (v.getSampleNearestNeighbourInterpolation coord))
      ∧ (v.interpolationMode = InterpolationMode.Linear →
        v.getSampleInterpolate coord = Except.ok (v.getSampleTriLinearInterpolation coord))
      ∧ (v.interpolationMode = InterpolationMode.Cubic →
        v.getSampleInterpolate coord = Except.ok (v.getSampleTriCubicInterpolation coord))
      ∧ (g.interpolationMode = InterpolationMode.NearestNeighbour →
        g.getGradientInterpolate coord = Except.ok (g.getGradientNearestNeighbor coord))
      ∧ (g.interpolationMode = InterpolationMode.Linear →
        g.getGradientInterpolate coord = Except.ok (g.getGradientLinearInterpolate coord))
      ∧ (g.interpolationMode = InterpolationMode.Cubic →
        g.getGradientInterpolate coord = Except.ok (g.getGradientLinearInterpolate coord)) := by
  refine ⟨?_, ?_, ?_, ?_, ?_, ?_, ?_, ?_⟩
  · unfold Volume.getSampleInterpolate
    cases hm : v.interpolationMode <;> simp
  · unfold GradientVolume.getGradientInterpolate
    cases hm : g.interpolationMode <;> simp
  all_goals
    intro hm
    simp only [Volume.getSampleInterpolate, GradientVolume.getGradientInterpolate, hm]

/-- C9: `reflectIndex` returns `-idx` for a negative index, `2 * maxIdx - idx` for an index
above `maxIdx` and the index itself otherwise; for `maxIdx >= 0` and
`-maxIdx <= idx <= 2 * maxIdx` the result is in `[0, maxIdx]`, and a `getVoxel` call whose
three indices are in that range on their axes reads inside the data array of a well-formed
volume, at the flat index of the reflected indices. -/
theorem reflectIndex_spec (v : Volume F) (idx maxIdx x y z : Int) :
    (idx < 0 → reflectIndex idx maxIdx = -idx)
      ∧ (0 ≤ idx → maxIdx < idx → reflectIndex idx maxIdx = 2 * maxIdx - idx)
      ∧ (0 ≤ idx → idx ≤ maxIdx → reflectIndex idx maxIdx = idx)
      ∧ (0 ≤ maxIdx → -maxIdx ≤ idx → idx ≤ 2 * maxIdx →
          0 ≤ reflectIndex idx maxIdx ∧ reflectIndex idx maxIdx ≤ maxIdx)
      ∧ (v.WellFormed →
          -(v.m_dim.x - 1) ≤ x → x ≤ 2 * (v.m_dim.x - 1) →
          -(v.m_dim.y - 1) ≤ y → y ≤ 2 * (v.m_dim.y - 1) →
          -(v.m_dim.z - 1) ≤ z → z ≤ 2 * (v.m_dim.z - 1) →
          0 ≤ flatIndex v.m_dim (reflectIndex x (v.m_dim.x - 1)) (reflectIndex y (v.m_dim.y - 1))
              (reflectIndex z (v.m_dim.z - 1))
            ∧ flatIndex v.m_dim (reflectIndex x (v.m_dim.x - 1)) (reflectIndex y (v.m_dim.y - 1))
              (reflectIndex z (v.m_dim.z - 1)) < (v.m_data.length : Int)
            ∧ ∃ a, v.getVoxel x y z = some a
              ∧ v.m_data[(flatIndex v.m_dim (reflectIndex x (v.m_dim.x - 1))
                  (reflectIndex y (v.m_dim.y - 1)) (reflectIndex z (v.m_dim.z - 1))).toNat]?
                = some a) := by
  refine ⟨?_, ?_, ?_, ?_, ?_⟩
  · intro h
    simp [reflectIndex, h]
  · intro h0 h1
    unfold reflectIndex
    rw [if_neg (by omega), if_pos (by omega)]
  · intro h0 h1
    exact reflectIndex_of_inRange idx maxIdx h0 h1
  · intro _ h1 h2
    exact reflectIndex_range idx maxIdx h1 h2
  · intro hwf hx0 hx1 hy0 hy1 hz0 hz1
    have rx := reflectIndex_range x (v.m_dim.x - 1) hx0 hx1
    have ry := reflectIndex_range y (v.m_dim.y - 1) hy0 hy1
    have rz := reflectIndex_range z (v.m_dim.z - 1) hz0 hz1
    have hb := flatIndex_bounds v.m_dim.x v.m_dim.y v.m_dim.z _ _ _ rx.1 (by omega) ry.1
      (by omega) rz.1 (by omega)
    unfold Volume.WellFormed at hwf
    rw [← hwf] at hb
    exact ⟨hb.1, hb.2, readAt_of_lt v.m_data _ hb.1 hb.2⟩

/-- Witness of C9: index 5 with `maxIdx = 3`, and the lookup `getVoxel(-1, 6, 4)` in the constant
4x4x4 volume. -/
theorem reflectIndex_spec_witness :
    reflectIndex 5 3 = 2 * 3 - 5
      ∧ (0 ≤ reflectIndex 5 3 ∧ reflectIndex 5 3 ≤ 3)
      ∧ ∃ a, constVolume.getVoxel (-1) 6 4 = some a :=
  have h := reflectIndex_spec constVolume 5 3 (-1) 6 4
  ⟨h.2.1 (by decide) (by decide), h.2.2.2.1 (by decide) (by decide) (by decide),
    (h.2.2.2.2 (by simp [Volume.WellFormed, constVolume]) (by decide) (by decide) (by decide)
      (by decide) (by decide) (by decide)).2.2.imp (fun _ ha => ha.1)⟩

/-- C10, evaluated on the 4x4x4 volume with brick size 2: `updateMinMax` sets the index volume
size to `(1, 1, 1)` and stores the single entry `(0, maximum)`, while the rounded-up quotients
are `(2, 2, 2)`, eight bricks. -/
theorem updateMinMax_single_brick :
    (GPUVolume.updateMinMax constBrickState).map
        (fun g => (g.m_indexVolumeSize, g.m_minMaxValues)) = some (⟨1, 1, 1⟩, [⟨0, 10⟩])
      ∧ (ceilDiv constBrickState.m_pVolume.dims.x constBrickState.m_brickSize,
          ceilDiv constBrickState.m_pVolume.dims.y constBrickState.m_brickSize,
          ceilDiv constBrickState.m_pVolume.dims.z constBrickState.m_brickSize) = (2, 2, 2) := by
  constructor
  · simp [GPUVolume.updateMinMax, constBrickState, GPUVolume.ofVolume, resize, writeAt,
      Volume.maximum, constVolume]
  · decide

/-- C7 fails for the nearest-neighbour sampler: in the one-voxel volume the coordinate
`(-1/4, 0, 0)` has a negative component, yet the sampler rounds it to voxel `(0, 0, 0)` and
returns its value 7. -/
theorem nearestNeighbour_negative_counterexample :
    ((-1 / 4 : ℚ) < 0)
      ∧ unitVolume.getSampleNearestNeighbourInterpolation ⟨-1 / 4, 0, 0⟩ = some 7
      ∧ unitVolume.getSampleNearestNeighbourInterpolation ⟨-1 / 4, 0, 0⟩ ≠ some 0 := by
  have hx : truncToInt ((-1 / 4 : ℚ) + 1 / 2) = 0 := by
    have h : Int.floor ((-1 / 4 : ℚ) + 1 / 2) = 0 := by
      rw [Int.floor_eq_iff]; norm_num
    simp only [truncToInt, h]
    norm_num
  have h0 : truncToInt ((0 : ℚ) + 1 / 2) = 0 := by
    have h : Int.floor ((0 : ℚ) + 1 / 2) = 0 := by
      rw [Int.floor_eq_iff]; norm_num
    simp only [truncToInt, h]
    norm_num
  have hval : unitVolume.getSampleNearestNeighbourInterpolation ⟨-1 / 4, 0, 0⟩ = some 7 := by
    have hguard : (Vec3.anyLessThan (Vec3.addScalar (⟨-1 / 4, 0, 0⟩ : Vec3 ℚ) (1 / 2))
        (Vec3.splat 0)
        || Vec3.anyGreaterThanEqual (Vec3.addScalar (⟨-1 / 4, 0, 0⟩ : Vec3 ℚ) (1 / 2))
          (Vec3.ofIVec3 unitVolume.m_dim)) = false := by
      rw [Bool.eq_false_iff, Ne, Bool.or_eq_true, anyLessThan_iff, anyGreaterThanEqual_iff]
      simp only [Vec3.addScalar, Vec3.splat, Vec3.ofIVec3, unitVolume]
      norm_num
    unfold Volume.getSampleNearestNeighbourInterpolation
    rw [hguard]
    simp only [hx, h0]
    rfl
  refine ⟨by norm_num, hval, ?_⟩
  rw [hval]
  norm_num

/-- C7 as amended: the nearest-neighbour sampler returns 0 when some component of the
coordinate is below -1/2 or at least the dimension on its axis, and the trilinear sampler
returns 0 when some component is negative or at least the dimension on its axis. -/
theorem sample_outOfRange_zero (v : Volume F) (coord : Vec3 F) :
    ((coord.x < -1 / 2 ∨ coord.y < -1 / 2 ∨ coord.z < -1 / 2
        ∨ (v.m_dim.x : F) ≤ coord.x ∨ (v.m_dim.y : F) ≤ coord.y ∨ (v.m_dim.z : F) ≤ coord.z) →
        v.getSampleNearestNeighbourInterpolation coord = some 0)
      ∧ ((coord.x < 0 ∨ coord.y < 0 ∨ coord.z < 0
        ∨ (v.m_dim.x : F) ≤ coord.x ∨ (v.m_dim.y : F) ≤ coord.y ∨ (v.m_dim.z : F) ≤ coord.z) →
        v.getSampleTriLinearInterpolation coord = some 0) := by
  constructor
  · intro h
    have hguard : (Vec3.anyLessThan (coord.addScalar (1 / 2)) (Vec3.splat 0)
        || Vec3.anyGreaterThanEqual (coord.addScalar (1 / 2)) (Vec3.ofIVec3 v.m_dim)) = true := by
      rw [Bool.or_eq_true, anyLessThan_iff, anyGreaterThanEqual_iff]
      simp only [Vec3.splat, Vec3.ofIVec3, Vec3.addScalar]
      rcases h with h | h | h | h | h | h
      · left; left; linarith
      · left; right; left; linarith
      · left; right; right; linarith
      · right; left; linarith
      · right; right; left; linarith
      · right; right; right; linarith
    exact if_pos hguard
  · intro h
    have hguard : Int.floor coord.x < 0 ∨ Int.floor coord.y < 0 ∨ Int.floor coord.z < 0
        ∨ Int.floor coord.x + 1 ≥ v.m_dim.x ∨ Int.floor coord.y + 1 ≥ v.m_dim.y
        ∨ Int.floor coord.z + 1 ≥ v.m_dim.z := by
      rcases h with h | h | h | h | h | h
      · left; exact Int.floor_lt.mpr (by exact_mod_cast h)
      · right; left; exact Int.floor_lt.mpr (by exact_mod_cast h)
      · right; right; left; exact Int.floor_lt.mpr (by exact_mod_cast h)
      · right; right; right; left
        have := Int.le_floor.mpr h
        omega
      · right; right; right; right; left
        have := Int.le_floor.mpr h
        omega
      · right; right; right; right; right
        have := Int.le_floor.mpr h
        omega
    exact if_pos hguard

/-- Witness of the amended C7: the coordinate `(-1, 0, 0)` in the one-voxel volume. -/
theorem sample_outOfRange_zero_witness :
    ((-1 : ℚ) < -1 / 2) ∧ ((-1 : ℚ) < 0)
      ∧ unitVolume.getSampleNearestNeighbourInterpolation ⟨-1, 0, 0⟩ = some 0
      ∧ unitVolume.getSampleTriLinearInterpolation ⟨-1, 0, 0⟩ = some 0 :=
  ⟨by norm_num, by norm_num,
    (sample_outOfRange_zero unitVolume ⟨-1, 0, 0⟩).1 (Or.inl (by norm_num)),
    (sample_outOfRange_zero unitVolume ⟨-1, 0, 0⟩).2 (Or.inl (by norm_num))⟩

/-- C11, evaluated on the 4x4x4 volume of value 10 with brick size 2: a direct scan of the
in-bounds region of brick `(0, 0, 0)` finds `(min, max) = (10, 10)`, but `updateMinMax` stores
`(0, 10)` for it, and it stores no entry at all for brick `(1, 0, 0)`, whose index is 1. -/
theorem updateMinMax_not_direct_scan :
    directScanMinMax constBrickState.m_pVolume constBrickState.m_brickSize 0 0 0
        = some ⟨10, 10⟩
      ∧ directScanMinMax constBrickState.m_pVolume constBrickState.m_brickSize 1 0 0
        = some ⟨10, 10⟩
      ∧ (GPUVolume.updateMinMax constBrickState).bind (fun g => readAt g.m_minMaxValues 0)
        = some ⟨0, 10⟩
      ∧ (GPUVolume.updateMinMax constBrickState).map (fun g => readAt g.m_minMaxValues 1)
        = some none := by
  refine ⟨?_, ?_, ?_, ?_⟩
  · decide
  · decide
  · decide
  · decide

/-- C12, evaluated at `N = 7`: `findOptimalDimensions` returns `(1, 1, 1)`, a triple of
positive integers whose product 1 is below 7. -/
theorem findOptimalDimensions_too_small (g : GPUVolume F) :
    g.findOptimalDimensions 7 = ⟨1, 1, 1⟩
      ∧ (g.findOptimalDimensions 7).x * (g.findOptimalDimensions 7).y
          * (g.findOptimalDimensions 7).z < 7 := by
  constructor
  · rfl
  · simp [GPUVolume.findOptimalDimensions]

/-- C13, evaluated on the 4x4x4 volume of value 10 with brick size 2 and bricking enabled: after
`brickSizeChanged` (which ends with `updateBrickCache`) and one more `updateBrickCache`,
`m_indexVolume` has no entry while the components of `m_indexVolumeSize` multiply to 1. -/
theorem indexVolume_length_mismatch (rc : RenderConfig ℚ) (table : List ℚ) :
    (constGPUVolume.brickSizeChanged rc table).map
        (fun g => ((g.updateBrickCache rc table).m_indexVolume.length,
          (g.updateBrickCache rc table).m_indexVolumeSize.x
            * (g.updateBrickCache rc table).m_indexVolumeSize.y
            * (g.updateBrickCache rc table).m_indexVolumeSize.z,
          (g.updateBrickCache rc table).m_volumeConfig.useVolumeBricking))
      = some (0, 1, true) := by
  rfl

/-- C14: with `useVolumeBricking = false`, `updateBrickCache` uploads the volume's data array
with the volume's dims as the cache texture and the single entry `(0, 0, 0, 0)` with dims
`(1, 1, 1)` as the index texture, and changes no other member. -/
theorem updateBrickCache_bricking_disabled (g : GPUVolume F) (rc : RenderConfig F)
    (table : List F) (h : g.m_volumeConfig.useVolumeBricking = false) :
    g.updateBrickCache rc table =
      { g with
        m_volumeTexture := Texture.floats g.m_pVolume.m_data g.m_pVolume.m_dim
        m_indexTexture := Texture.vec4s [⟨0, 0, 0, 0⟩] ⟨1, 1, 1⟩ }
      ∧ (g.updateBrickCache rc table).m_brickVolume = g.m_brickVolume
      ∧ (g.updateBrickCache rc table).m_brickVolumeSize = g.m_brickVolumeSize
      ∧ (g.updateBrickCache rc table).m_indexVolume = g.m_indexVolume
      ∧ (g.updateBrickCache rc table).m_indexVolumeSize = g.m_indexVolumeSize
      ∧ (g.updateBrickCache rc table).m_minMaxValues = g.m_minMaxValues := by
  have hg : g.updateBrickCache rc table =
      { g with
        m_volumeTexture := Texture.floats g.m_pVolume.m_data g.m_pVolume.m_dim
        m_indexTexture := Texture.vec4s [⟨0, 0, 0, 0⟩] ⟨1, 1, 1⟩ } := by
    unfold GPUVolume.updateBrickCache
    rw [h]
    rfl
  refine ⟨hg, ?_, ?_, ?_, ?_, ?_⟩ <;> rw [hg]

/-- Witness of C14: the brick cache object of the 4x4x4 volume with its default configuration,
bricking disabled. -/
theorem updateBrickCache_bricking_disabled_witness :
    (GPUVolume.ofVolume constVolume).m_volumeConfig.useVolumeBricking = false
      ∧ ((GPUVolume.ofVolume constVolume).updateBrickCache compositeConfig []).m_indexVolume
        = [] :=
  ⟨rfl, (updateBrickCache_bricking_disabled (GPUVolume.ofVolume constVolume) compositeConfig []
    rfl).2.2.2.1⟩

/-- C15: `updateBrickCache`, and `GPURenderer::updateVolumeBricks` which only forwards to it,
leave `m_indexVolumeSize` as it was, for every state, render configuration and opacity sum
table. -/
theorem updateBrickCache_keeps_indexVolumeSize (g : GPUVolume F) (rc : RenderConfig F)
    (table : List F) (r : GPURenderer F) :
    (g.updateBrickCache rc table).m_indexVolumeSize = g.m_indexVolumeSize
      ∧ r.updateVolumeBricks.m_pGPUVolume.m_indexVolumeSize
        = r.m_pGPUVolume.m_indexVolumeSize := by
  have h : ∀ (g : GPUVolume F) (rc : RenderConfig F) (table : List F),
      (g.updateBrickCache rc table).m_indexVolumeSize = g.m_indexVolumeSize := by
    intro g rc table
    unfold GPUVolume.updateBrickCache
    split_ifs <;> rfl
  exact ⟨h g rc table, h r.m_pGPUVolume r.m_renderConfig r.m_opacitySumTable⟩

/-- C16, evaluated end to end on the 4x4x4 volume of value 10 with brick size 2 and bricking
enabled: the full rebuild `brickSizeChanged` yields the index volume size `(1, 1, 1)`, the
single summary `(0, 10)`, an empty brick cache and an empty index volume, whatever the transfer
function is. -/
theorem brickSizeChanged_end_to_end (table : List ℚ) :
    (constGPUVolume.brickSizeChanged compositeConfig table).map
        (fun g => (g.m_indexVolumeSize, g.m_minMaxValues, g.m_brickVolume, g.m_indexVolume,
          g.m_brickVolumeSize))
      = some (⟨1, 1, 1⟩, [⟨0, 10⟩], [], [], ⟨0, 0, 0⟩)
      ∧ readAt compositeConfig.tfColorMap 10 = some ⟨1, 1, 1, 1⟩ := by
  constructor
  · rfl
  · decide

/-- C17, evaluated on a renderer whose table holds zeros and whose transfer function has alpha 1
at index 10: `updateOpacitySumTable` leaves the table as it was, so entry 10 is 0 although entry
9 plus the alpha at index 10 is 1. -/
theorem updateOpacitySumTable_does_nothing :
    (GPURenderer.setRenderConfig constRenderer compositeConfig).map
        (fun r => r.updateOpacitySumTable.m_opacitySumTable) = some (List.replicate 256 0)
      ∧ (readAt compositeConfig.tfColorMap 10).map (fun c => c.w) = some 1
      ∧ readAt (List.replicate 256 (0 : ℚ)) 9 = some 0
      ∧ readAt (List.replicate 256 (0 : ℚ)) 10 = some 0 := by
  refine ⟨?_, ?_, ?_, ?_⟩
  · rfl
  · decide
  · decide
  · decide

/-- C18, evaluated on the renderer over the 4x4x4 volume of value 10 in Iso mode with iso value
95: after `updateGPUMesh(true)` the only block has the summary `(0, 10)`, which does not contain
the iso value, and its flag is 1. -/
theorem updateActiveBlocks_always_active :
    (constRenderer.updateGPUMesh true).map
        (fun r => (r.m_renderConfig.renderMode, r.m_renderConfig.isoValue, r.m_minMaxValues,
          r.m_blockActive))
      = some (RenderMode.RenderIso, 95, [⟨0, 10⟩], [1])
      ∧ isoActive (95 : ℚ) ⟨0, 10⟩ = false := by
  constructor
  · decide
  · decide

/-- C19, evaluated on the renderer over the 4x4x4 volume with block size 2:
`updateBlockingMinMaxTable` sets `m_numBlocks3D = (1, 1, 1)` and leaves one entry in
`m_positions` and one in `m_minMaxValues`, while the rounded-up quotients are `(2, 2, 2)`. -/
theorem updateBlockingMinMaxTable_single_block :
    constRenderer.updateBlockingMinMaxTable.m_numBlocks3D = ⟨1, 1, 1⟩
      ∧ constRenderer.updateBlockingMinMaxTable.m_positions.length = 1
      ∧ constRenderer.updateBlockingMinMaxTable.m_minMaxValues.length = 1
      ∧ (ceilDiv constRenderer.m_pVolume.dims.x constRenderer.m_meshConfig.blockSize,
          ceilDiv constRenderer.m_pVolume.dims.y constRenderer.m_meshConfig.blockSize,
          ceilDiv constRenderer.m_pVolume.dims.z constRenderer.m_meshConfig.blockSize)
        = (2, 2, 2) := by
  refine ⟨rfl, rfl, rfl, ?_⟩
  decide

theorem wrapInt32_of_inRange (n : Int) (h0 : -2147483648 ≤ n) (h1 : n < 2147483648) :
    wrapInt32 n = n := by
  unfold wrapInt32
  omega

theorem flatIndex32_eq (dim : IVec3) (x y z : Int)
    (hbound : dim.x * dim.y * dim.z < 2147483648)
    (hx : 0 ≤ x) (hxd : x < dim.x) (hy : 0 ≤ y) (hyd : y < dim.y) (hz : 0 ≤ z)
    (hzd : z < dim.z) : flatIndex32 dim x y z = flatIndex dim x y z := by
  have hdx : 0 < dim.x := by omega
  have hdy : 0 < dim.y := by omega
  have h1 : 0 ≤ dim.y * z := mul_nonneg hdy.le hz
  have h2 : dim.y * z ≤ dim.y * (dim.z - 1) := mul_le_mul_of_nonneg_left (by omega) hdy.le
  have h2' : dim.y * (dim.z - 1) = dim.y * dim.z - dim.y := by ring
  have h3 : 0 ≤ dim.x * (y + dim.y * z) := mul_nonneg hdx.le (by omega)
  have h4 : dim.x * (y + dim.y * z) ≤ dim.x * (dim.y * dim.z - 1) :=
    mul_le_mul_of_nonneg_left (by omega) hdx.le
  have h4' : dim.x * (dim.y * dim.z - 1) = dim.x * dim.y * dim.z - dim.x := by ring
  have h5 : dim.y * dim.z ≤ dim.x * (dim.y * dim.z) :=
    le_mul_of_one_le_left (by omega) (by omega)
  have h5' : dim.x * (dim.y * dim.z) = dim.x * dim.y * dim.z := by ring
  unfold flatIndex32 flatIndex
  rw [wrapInt32_of_inRange (dim.y * z) (by omega) (by omega),
    wrapInt32_of_inRange (y + dim.y * z) (by omega) (by omega),
    wrapInt32_of_inRange (dim.x * (y + dim.y * z)) (by omega) (by omega),
    wrapInt32_of_inRange (x + dim.x * (y + dim.y * z)) (by omega) (by omega)]

/-- C20 fails on the code for volumes of `2^31` voxels or more: with dims `(65536, 65536, 2)`
the in-range voxels `(0, 0, 0)` and `(0, 0, 1)` both get the flat index 0, because
`65536 * 65536` is `2^32` and wraps to 0 in 32-bit `int`; `Volume::getVoxel` reads the first
element of the data array for both. -/
theorem flatIndex32_overflow_counterexample :
    ((0 : Int) < 65536 ∧ (0 : Int) < 2 ∧ (1 : Int) < 2)
      ∧ ((0 : Int), (0 : Int), (0 : Int)) ≠ ((0 : Int), (0 : Int), (1 : Int))
      ∧ flatIndex32 ⟨65536, 65536, 2⟩ 0 0 0 = 0
      ∧ flatIndex32 ⟨65536, 65536, 2⟩ 0 0 1 = 0
      ∧ flatIndex32 ⟨65536, 65536, 2⟩ 0 0 0 = flatIndex32 ⟨65536, 65536, 2⟩ 0 0 1
      ∧ (∀ data : List ℚ,
          Assignment2.Volume.getVoxel
              (⟨⟨65536, 65536, 2⟩, data, 0, 0, [], InterpolationMode.NearestNeighbour⟩ : Volume ℚ)
              0 0 0 = readAt data 0
            ∧ Assignment2.Volume.getVoxel
              (⟨⟨65536, 65536, 2⟩, data, 0, 0, [], InterpolationMode.NearestNeighbour⟩ : Volume ℚ)
              0 0 1 = readAt data 0) := by
  refine ⟨by decide, by decide, by decide, by decide, by decide, fun data => ⟨?_, ?_⟩⟩
  · have h : flatIndex32 ⟨65536, 65536, 2⟩ 0 0 0 = 0 := by decide
    unfold flatIndex32 at h
    simp only [Assignment2.Volume.getVoxel, h]
  · have h : flatIndex32 ⟨65536, 65536, 2⟩ 0 0 1 = 0 := by decide
    unfold flatIndex32 at h
    simp only [Assignment2.Volume.getVoxel, h]

/-- C20 as amended: for dims with fewer than `2^31` voxels and in-range coordinates (so all
three dims are positive), the flat index that the code computes in 32-bit `int` is the exact
`x + dx * (y + dy * z)`, it lies in `[0, dx * dy * dz)`, two different in-range coordinates have
different flat indices, and it is the index at which `Volume::getVoxel` and
`GradientVolume::getGradient` read their arrays. -/
theorem flatIndex_inRange_injective (v : Volume F) (g : GradientVolume F) (dim : IVec3)
    (x y z x' y' z' : Int)
    (hbound : dim.x * dim.y * dim.z < 2147483648)
    (hv : v.m_dim = dim) (hg : g.m_dim = dim)
    (hx : 0 ≤ x) (hxd : x < dim.x) (hy : 0 ≤ y) (hyd : y < dim.y) (hz : 0 ≤ z) (hzd : z < dim.z)
    (hx' : 0 ≤ x') (hxd' : x' < dim.x) (hy' : 0 ≤ y') (hyd' : y' < dim.y) (hz' : 0 ≤ z')
    (hzd' : z' < dim.z) :
    (0 < dim.x ∧ 0 < dim.y ∧ 0 < dim.z)
      ∧ flatIndex32 dim x y z = x + dim.x * (y + dim.y * z)
      ∧ 0 ≤ flatIndex32 dim x y z
      ∧ flatIndex32 dim x y z < dim.x * dim.y * dim.z
      ∧ ((x, y, z) ≠ (x', y', z') → flatIndex32 dim x y z ≠ flatIndex32 dim x' y' z')
      ∧ Assignment2.Volume.getVoxel v x y z = readAt v.m_data (flatIndex32 dim x y z)
      ∧ g.getGradient x y z = readAt g.m_data (flatIndex32 dim x y z) := by
  have hb := flatIndex_bounds dim.x dim.y dim.z x y z hx hxd hy hyd hz hzd
  have e := flatIndex32_eq dim x y z hbound hx hxd hy hyd hz hzd
  have e' := flatIndex32_eq dim x' y' z' hbound hx' hxd' hy' hyd' hz' hzd'
  refine ⟨⟨by omega, by omega, by omega⟩, e, ?_, ?_, ?_, ?_, ?_⟩
  · rw [e]
    exact hb.1
  · rw [e]
    exact hb.2
  · intro hne hflat
    rw [e, e'] at hflat
    obtain ⟨e1, e2, e3⟩ := flatIndex_inj dim.x dim.y x y z x' y' z' hx hxd hx' hxd' hy hyd hy'
      hyd' hflat
    exact hne (by rw [e1, e2, e3])
  · subst hv
    rfl
  · subst hg
    rw [e]
    rfl

/-- Witness of the amended C20: the voxels `(3, 1, 2)` and `(0, 2, 2)` of the 4x4x4 volume, 64
voxels, with flat indices 39 and 40. -/
theorem flatIndex_inRange_injective_witness :
    ((4 : Int) * 4 * 4 < 2147483648)
      ∧ flatIndex32 ⟨4, 4, 4⟩ 3 1 2 = 39
      ∧ flatIndex32 ⟨4, 4, 4⟩ 3 1 2 < 4 * 4 * 4
      ∧ flatIndex32 ⟨4, 4, 4⟩ 3 1 2 ≠ flatIndex32 ⟨4, 4, 4⟩ 0 2 2
      ∧ Assignment2.Volume.getVoxel constVolume 3 1 2
        = readAt constVolume.m_data (flatIndex32 ⟨4, 4, 4⟩ 3 1 2) :=
  have h := flatIndex_inRange_injective constVolume
    (⟨⟨4, 4, 4⟩, [], 0, 0, InterpolationMode.NearestNeighbour⟩ : GradientVolume ℚ) ⟨4, 4, 4⟩
    3 1 2 0 2 2 (by decide) rfl rfl
    (by decide) (by decide) (by decide) (by decide) (by decide) (by decide)
    (by decide) (by decide) (by decide) (by decide) (by decide) (by decide)
  ⟨by decide, h.2.1, h.2.2.2.1, h.2.2.2.2.1 (by decide), h.2.2.2.2.2.1⟩

/-- C22 fails on the code: for the existing file with extension `.txt` the constructor returns
normally, with a volume object whose data array is empty and whose dims, minimum and maximum
are the initial ones; the only report is the message on the error stream. -/
theorem ofFile_txt_counterexample :
    Volume.ofFile true ".txt" (fun _ => ((⟨2, 2, 2⟩ : IVec3), ([7, 7, 7, 7, 7, 7, 7, 7] : List ℚ)))
        ⟨0, 0, 0⟩ 0 0
      = Except.ok (⟨⟨0, 0, 0⟩, [], 0, 0, [], InterpolationMode.NearestNeighbour⟩,
          ["Unsupported file extension: ", ".txt", "\n"]) := by
  rfl

/-- C22 as amended: for a file that opens and whose lower-cased extension is neither `.fld` nor
`.dat`, `loadFile` writes `Unsupported file extension:` and the extension to the error stream
and returns without reading; the constructor then returns a volume object with an empty data
array, an empty histogram and the initial dims, minimum and maximum. -/
theorem ofFile_unsupported_extension (extension : String)
    (parse : FileExtension → IVec3 × List F) (dim0 : IVec3) (minimum0 maximum0 : F)
    (hfld : toLowerString extension ≠ ".fld") (hdat : toLowerString extension ≠ ".dat") :
    Volume.ofFile true extension parse dim0 minimum0 maximum0
      = Except.ok (⟨dim0, [], minimum0, maximum0, [], InterpolationMode.NearestNeighbour⟩,
          ["Unsupported file extension: ", toLowerString extension, "\n"]) := by
  simp [Volume.ofFile, Volume.loadFile, hfld, hdat]

/-- Witness of the amended C22: the extension `.TXT`. -/
theorem ofFile_unsupported_extension_witness :
    Volume.ofFile true ".TXT" (fun _ => ((⟨2, 2, 2⟩ : IVec3), ([7, 7, 7, 7, 7, 7, 7, 7] : List ℚ)))
        ⟨0, 0, 0⟩ 0 0
      = Except.ok (⟨⟨0, 0, 0⟩, [], 0, 0, [], InterpolationMode.NearestNeighbour⟩,
          ["Unsupported file extension: ", ".txt", "\n"]) :=
  ofFile_unsupported_extension ".TXT" _ ⟨0, 0, 0⟩ 0 0 (by decide) (by decide)

/-- C23, evaluated at `a = 7`, `b = 3`: the `linearInterpolate` of the second assignment returns
0 at factor 0 and at factor 1, not 7 and 3. -/
theorem assignment2_linearInterpolate_zero :
    Assignment2.Volume.linearInterpolate (7 : ℚ) 3 0 = 0
      ∧ Assignment2.Volume.linearInterpolate (7 : ℚ) 3 1 = 0
      ∧ Assignment2.Volume.linearInterpolate (7 : ℚ) 3 0 ≠ 7
      ∧ Assignment2.Volume.linearInterpolate (7 : ℚ) 3 1 ≠ 3 := by
  refine ⟨rfl, rfl, ?_, ?_⟩ <;> simp [Assignment2.Volume.linearInterpolate]

/-- C25, evaluated on the gradient volume of the one-voxel volume at the coordinate
`(0, 0, 0)`, which lies in `[0, dims)`: `getGradientLinearInterpolate` passes its guard and reads
the lattice voxel `(0, 0, 1)`, entry 1 of the one-entry voxel array. -/
theorem linearInterpolate_reads_past_end :
    ((0 : ℚ) < ((unitGradient.m_dim.z : Int) : ℚ))
      ∧ truncToInt (0 : ℚ) + 1 = 1
      ∧ unitGradient.getGradient 0 0 1 = none
      ∧ unitGradient.getGradientLinearInterpolate ⟨0, 0, 0⟩ = none := by
  refine ⟨?_, ?_, ?_, ?_⟩
  · decide
  · decide
  · decide
  · decide

theorem updateMinMax_eq (g : GPUVolume F) :
    g.updateMinMax = some { g with
      m_indexVolumeSize := ⟨1, 1, 1⟩
      m_minMaxValues := [⟨0, g.m_pVolume.maximum⟩] } := by
  have h : writeAt (resize g.m_minMaxValues 1 (⟨0, 0⟩ : Vec2 F)) 0 ⟨0, g.m_pVolume.maximum⟩
      = some [⟨0, g.m_pVolume.maximum⟩] := by
    cases g.m_minMaxValues <;> simp [resize, writeAt]
  simp only [GPUVolume.updateMinMax, Option.bind_eq_bind]
  have h1 : ((1 : Int) * 1 * 1).toNat = 1 := by decide
  rw [h1, h]
  rfl

theorem updateBrickCache_frame (k : GPUVolume F) (rc : RenderConfig F) (table : List F) :
    (k.updateBrickCache rc table).m_volumeConfig = k.m_volumeConfig
      ∧ (k.updateBrickCache rc table).m_pVolume = k.m_pVolume
      ∧ (k.updateBrickCache rc table).m_brickSize = k.m_brickSize
      ∧ (k.updateBrickCache rc table).m_useBricking = k.m_useBricking
      ∧ (k.updateBrickCache rc table).m_volumeDims = k.m_volumeDims := by
  unfold GPUVolume.updateBrickCache
  split_ifs <;> exact ⟨rfl, rfl, rfl, rfl, rfl⟩

/-- C30: `brickSizeChanged` rebuilds (`updateMinMax`, then `updateBrickCache`, on the state with
the cached triple set to the configured one) when the configured brick size, bricking flag or
the volume dims differ from the cached ones, and returns the state unchanged when they all
match; it always returns, afterwards the cached triple equals the configured one, and a further
call, with any render configuration and table, changes nothing. -/
theorem brickSizeChanged_rebuild_iff (g : GPUVolume F) (rc : RenderConfig F) (table : List F) :
    ((g.m_brickSize ≠ g.m_volumeConfig.brickSize
          ∨ g.m_useBricking ≠ g.m_volumeConfig.useVolumeBricking
          ∨ g.m_volumeDims ≠ g.m_pVolume.dims) →
        g.brickSizeChanged rc table
          = (GPUVolume.updateMinMax { g with
              m_brickSize := g.m_volumeConfig.brickSize
              m_useBricking := g.m_volumeConfig.useVolumeBricking
              m_volumeDims := g.m_pVolume.dims }).map
            (fun g2 => g2.updateBrickCache rc table))
      ∧ ((g.m_brickSize = g.m_volumeConfig.brickSize
          ∧ g.m_useBricking = g.m_volumeConfig.useVolumeBricking
          ∧ g.m_volumeDims = g.m_pVolume.dims) →
        g.brickSizeChanged rc table = some g)
      ∧ ∃ g', g.brickSizeChanged rc table = some g'
        ∧ g'.m_volumeConfig = g.m_volumeConfig
        ∧ g'.m_pVolume = g.m_pVolume
        ∧ g'.m_brickSize = g.m_volumeConfig.brickSize
        ∧ g'.m_useBricking = g.m_volumeConfig.useVolumeBricking
        ∧ g'.m_volumeDims = g.m_pVolume.dims
        ∧ ∀ (rc' : RenderConfig F) (table' : List F), g'.brickSizeChanged rc' table' = some g' := by
  have hsame : ∀ (k : GPUVolume F) (rc' : RenderConfig F) (table' : List F),
      (k.m_brickSize = k.m_volumeConfig.brickSize
        ∧ k.m_useBricking = k.m_volumeConfig.useVolumeBricking
        ∧ k.m_volumeDims = k.m_pVolume.dims) → k.brickSizeChanged rc' table' = some k := by
    intro k rc' table' hk
    unfold GPUVolume.brickSizeChanged
    rw [if_neg (by tauto)]
    rfl
  have hdiff : (g.m_brickSize ≠ g.m_volumeConfig.brickSize
        ∨ g.m_useBricking ≠ g.m_volumeConfig.useVolumeBricking
        ∨ g.m_volumeDims ≠ g.m_pVolume.dims) →
      g.brickSizeChanged rc table
        = (GPUVolume.updateMinMax { g with
            m_brickSize := g.m_volumeConfig.brickSize
            m_useBricking := g.m_volumeConfig.useVolumeBricking
            m_volumeDims := g.m_pVolume.dims }).map
          (fun g2 => g2.updateBrickCache rc table) := by
    intro hd
    unfold GPUVolume.brickSizeChanged
    rw [if_pos hd]
    simp only [updateMinMax_eq, Option.bind_eq_bind, Option.some_bind, Option.map_some']
    rfl
  refine ⟨hdiff, hsame g rc table, ?_⟩
  by_cases hd : g.m_brickSize ≠ g.m_volumeConfig.brickSize
      ∨ g.m_useBricking ≠ g.m_volumeConfig.useVolumeBricking
      ∨ g.m_volumeDims ≠ g.m_pVolume.dims
  · rw [hdiff hd, updateMinMax_eq]
    have hf := updateBrickCache_frame
      ({ g with
          m_brickSize := g.m_volumeConfig.brickSize
          m_useBricking := g.m_volumeConfig.useVolumeBricking
          m_volumeDims := g.m_pVolume.dims
          m_indexVolumeSize := ⟨1, 1, 1⟩
          m_minMaxValues := [⟨0, g.m_pVolume.maximum⟩] } : GPUVolume F) rc table
    refine ⟨_, rfl, hf.1, hf.2.1, hf.2.2.1, hf.2.2.2.1, hf.2.2.2.2, ?_⟩
    intro rc' table'
    apply hsame
    exact ⟨hf.2.2.1.trans (congrArg GPUVolumeConfig.brickSize hf.1.symm),
      hf.2.2.2.1.trans (congrArg GPUVolumeConfig.useVolumeBricking hf.1.symm),
      hf.2.2.2.2.trans (congrArg Volume.dims hf.2.1.symm)⟩
  · have hm : g.m_brickSize = g.m_volumeConfig.brickSize
        ∧ g.m_useBricking = g.m_volumeConfig.useVolumeBricking
        ∧ g.m_volumeDims = g.m_pVolume.dims := by
      push_neg at hd
      exact hd
    exact ⟨g, hsame g rc table hm, rfl, rfl, hm.1, hm.2.1, hm.2.2,
      fun rc' table' => hsame g rc' table' hm⟩

/-- Witness of C30: the first call on the brick cache object of the 4x4x4 volume with brick size
2 rebuilds, and the cached brick size -1 differs from the configured 2. -/
theorem brickSizeChanged_rebuild_iff_witness :
    constGPUVolume.m_brickSize ≠ constGPUVolume.m_volumeConfig.brickSize
      ∧ constGPUVolume.brickSizeChanged compositeConfig []
        = (GPUVolume.updateMinMax { constGPUVolume with
            m_brickSize := constGPUVolume.m_volumeConfig.brickSize
            m_useBricking := constGPUVolume.m_volumeConfig.useVolumeBricking
            m_volumeDims := constGPUVolume.m_pVolume.dims }).map
          (fun g2 => g2.updateBrickCache compositeConfig []) :=
  ⟨by decide,
    (brickSizeChanged_rebuild_iff constGPUVolume compositeConfig []).1 (Or.inl (by decide))⟩

/-- C26, evaluated at the factor 1/2: `weight` takes the absolute value of its argument as an
integer, so the four weights at `3/2, 1/2, -1/2, -3/2` are `0, 1, 1, 0` and add up to 2;
`cubicInterpolate(1, 2, 4, 8, 1/2)` is `2 + 4 = 6` where the Catmull-Rom spline is 45/16, and the
constant data `5, 5, 5, 5` gives 10. -/
theorem cubicInterpolate_integer_abs :
    truncToInt ((1 / 2 : ℚ) - 1) = 0
      ∧ Volume.weight ((1 / 2 : ℚ) + 1) = 0
      ∧ Volume.weight (1 / 2 : ℚ) = 1
      ∧ Volume.weight ((1 / 2 : ℚ) - 1) = 1
      ∧ Volume.weight ((1 / 2 : ℚ) - 2) = 0
      ∧ Volume.cubicInterpolate (1 : ℚ) 2 4 8 (1 / 2) = 6
      ∧ catmullRom (1 : ℚ) 2 4 8 (1 / 2) = 45 / 16
      ∧ Volume.cubicInterpolate (5 : ℚ) 5 5 5 (1 / 2) = 10 := by
  have t1 : truncToInt ((1 / 2 : ℚ) + 1) = 1 := by
    have h : Int.floor ((1 / 2 : ℚ) + 1) = 1 := by
      rw [Int.floor_eq_iff]; norm_num
    simp only [truncToInt, h]
    norm_num
  have t2 : truncToInt (1 / 2 : ℚ) = 0 := by
    have h : Int.floor (1 / 2 : ℚ) = 0 := by
      rw [Int.floor_eq_iff]; norm_num
    simp only [truncToInt, h]
    norm_num
  have t3 : truncToInt ((1 / 2 : ℚ) - 1) = 0 := by
    have h : Int.ceil ((1 / 2 : ℚ) - 1) = 0 := by
      rw [Int.ceil_eq_iff]; norm_num
    simp only [truncToInt, h]
    norm_num
  have t4 : truncToInt ((1 / 2 : ℚ) - 2) = -1 := by
    have h : Int.ceil ((1 / 2 : ℚ) - 2) = -1 := by
      rw [Int.ceil_eq_iff]; norm_num
    simp only [truncToInt, h]
    norm_num
  have w1 : Volume.weight ((1 / 2 : ℚ) + 1) = 0 := by
    simp only [Volume.weight, t1]
    norm_num
  have w2 : Volume.weight (1 / 2 : ℚ) = 1 := by
    simp only [Volume.weight, t2]
    norm_num
  have w3 : Volume.weight ((1 / 2 : ℚ) - 1) = 1 := by
    simp only [Volume.weight, t3]
    norm_num
  have w4 : Volume.weight ((1 / 2 : ℚ) - 2) = 0 := by
    simp only [Volume.weight, t4]
    norm_num
  refine ⟨t3, w1, w2, w3, w4, ?_, ?_, ?_⟩
  · simp only [Volume.cubicInterpolate, w1, w2, w3, w4]
    norm_num
  · simp only [catmullRom]
    norm_num
  · simp only [Volume.cubicInterpolate, w1, w2, w3, w4]
    norm_num

theorem readsInBounds_of_inBox (v : Volume F) (hwf : v.WellFormed) (x y z : Int)
    (hx : 0 ≤ x ∧ x < v.m_dim.x) (hy : 0 ≤ y ∧ y < v.m_dim.y) (hz : 0 ≤ z ∧ z < v.m_dim.z) :
    ReadsInBounds v x y z := by
  have hb := flatIndex_bounds v.m_dim.x v.m_dim.y v.m_dim.z x y z hx.1 hx.2 hy.1 hy.2 hz.1 hz.2
  unfold Volume.WellFormed at hwf
  rw [← hwf] at hb
  have rx := reflectIndex_of_inRange x (v.m_dim.x - 1) hx.1 (by omega)
  have ry := reflectIndex_of_inRange y (v.m_dim.y - 1) hy.1 (by omega)
  have rz := reflectIndex_of_inRange z (v.m_dim.z - 1) hz.1 (by omega)
  refine ⟨hx, hy, hz, rx, ry, rz, hb.1, hb.2, ?_⟩
  unfold Volume.getVoxel
  simp only [rx, ry, rz]
  rfl

theorem truncToInt_of_nonneg (f : F) (h : 0 ≤ f) : truncToInt f = Int.floor f := by
  unfold truncToInt
  rw [if_pos h]

/-- C29: for a well-formed volume and every coordinate, each of the two samplers either returns
0 whatever the data array holds, or reads only voxels whose indices are within `[0, dims)` on
every axis, where `reflectIndex` is the identity and the flat index is inside the data array:
the nearest-neighbour sampler returns what `getVoxel` reads at the rounded voxel, and the
trilinear sampler returns the blend of what `getVoxel` reads at the eight corners, all eight
reads succeeding. -/
theorem samplers_read_in_bounds (v : Volume F) (hwf : v.WellFormed) (coord : Vec3 F) :
    ((∀ data : List F,
          Volume.getSampleNearestNeighbourInterpolation { v with m_data := data } coord = some 0)
        ∨ (ReadsInBounds v (truncToInt (coord.x + 1 / 2)) (truncToInt (coord.y + 1 / 2))
              (truncToInt (coord.z + 1 / 2))
            ∧ v.getSampleNearestNeighbourInterpolation coord
              = v.getVoxel (truncToInt (coord.x + 1 / 2)) (truncToInt (coord.y + 1 / 2))
                (truncToInt (coord.z + 1 / 2))))
      ∧ ((∀ data : List F,
          Volume.getSampleTriLinearInterpolation { v with m_data := data } coord = some 0)
        ∨ ((∀ i j k : Int, (i = 0 ∨ i = 1) → (j = 0 ∨ j = 1) → (k = 0 ∨ k = 1) →
              ReadsInBounds v (Int.floor coord.x + i) (Int.floor coord.y + j)
                (Int.floor coord.z + k))
            ∧ ∃ v000 v001 v010 v011 v100 v101 v110 v111 : F,
              v.getVoxel (Int.floor coord.x) (Int.floor coord.y) (Int.floor coord.z)
                  = some v000
                ∧ v.getVoxel (Int.floor coord.x) (Int.floor coord.y) (Int.floor coord.z + 1)
                  = some v001
                ∧ v.getVoxel (Int.floor coord.x) (Int.floor coord.y + 1) (Int.floor coord.z)
                  = some v010
                ∧ v.getVoxel (Int.floor coord.x) (Int.floor coord.y + 1)
                  (Int.floor coord.z + 1) = some v011
                ∧ v.getVoxel (Int.floor coord.x + 1) (Int.floor coord.y) (Int.floor coord.z)
                  = some v100
                ∧ v.getVoxel (Int.floor coord.x + 1) (Int.floor coord.y)
                  (Int.floor coord.z + 1) = some v101
                ∧ v.getVoxel (Int.floor coord.x + 1) (Int.floor coord.y + 1)
                  (Int.floor coord.z) = some v110
                ∧ v.getVoxel (Int.floor coord.x + 1) (Int.floor coord.y + 1)
                  (Int.floor coord.z + 1) = some v111
                ∧ v.getSampleTriLinearInterpolation coord
                  = some (Volume.linearInterpolate
                    (Volume.linearInterpolate
                      (Volume.linearInterpolate v000 v100 (coord.x - (Int.floor coord.x : F)))
                      (Volume.linearInterpolate v010 v110 (coord.x - (Int.floor coord.x : F)))
                      (coord.y - (Int.floor coord.y : F)))
                    (Volume.linearInterpolate
                      (Volume.linearInterpolate v001 v101 (coord.x - (Int.floor coord.x : F)))
                      (Volume.linearInterpolate v011 v111 (coord.x - (Int.floor coord.x : F)))
                      (coord.y - (Int.floor coord.y : F)))
                    (coord.z - (Int.floor coord.z : F))))) := by
  constructor
  · by_cases hguard : (Vec3.anyLessThan (coord.addScalar (1 / 2)) (Vec3.splat 0)
        || Vec3.anyGreaterThanEqual (coord.addScalar (1 / 2)) (Vec3.ofIVec3 v.m_dim)) = true
    · left
      intro data
      exact if_pos hguard
    · right
      have hg := hguard
      rw [Bool.or_eq_true, anyLessThan_iff, anyGreaterThanEqual_iff] at hg
      simp only [Vec3.splat, Vec3.ofIVec3, Vec3.addScalar] at hg
      push_neg at hg
      obtain ⟨⟨hx0, hy0, hz0⟩, hx1, hy1, hz1⟩ := hg
      rw [truncToInt_of_nonneg _ hx0, truncToInt_of_nonneg _ hy0, truncToInt_of_nonneg _ hz0]
      refine ⟨readsInBounds_of_inBox v hwf _ _ _ ⟨Int.floor_nonneg.mpr hx0, Int.floor_lt.mpr hx1⟩
        ⟨Int.floor_nonneg.mpr hy0, Int.floor_lt.mpr hy1⟩
        ⟨Int.floor_nonneg.mpr hz0, Int.floor_lt.mpr hz1⟩, ?_⟩
      unfold Volume.getSampleNearestNeighbourInterpolation
      rw [if_neg hguard]
      simp only [truncToInt_of_nonneg _ hx0, truncToInt_of_nonneg _ hy0,
        truncToInt_of_nonneg _ hz0]
  · by_cases hguard : Int.floor coord.x < 0 ∨ Int.floor coord.y < 0 ∨ Int.floor coord.z < 0
        ∨ Int.floor coord.x + 1 ≥ v.m_dim.x ∨ Int.floor coord.y + 1 ≥ v.m_dim.y
        ∨ Int.floor coord.z + 1 ≥ v.m_dim.z
    · left
      intro data
      exact if_pos hguard
    · right
      have hg := hguard
      push_neg at hg
      obtain ⟨hx0, hy0, hz0, hx1, hy1, hz1⟩ := hg
      have r000 := (getVoxel_inBox v hwf (Int.floor coord.x) (Int.floor coord.y)
        (Int.floor coord.z) (by omega) (by omega) (by omega) (by omega) (by omega) (by omega)).1
      have r001 := (getVoxel_inBox v hwf (Int.floor coord.x) (Int.floor coord.y)
        (Int.floor coord.z + 1) (by omega) (by omega) (by omega) (by omega) (by omega)
        (by omega)).1
      have r010 := (getVoxel_inBox v hwf (Int.floor coord.x) (Int.floor coord.y + 1)
        (Int.floor coord.z) (by omega) (by omega) (by omega) (by omega) (by omega) (by omega)).1
      have r011 := (getVoxel_inBox v hwf (Int.floor coord.x) (Int.floor coord.y + 1)
        (Int.floor coord.z + 1) (by omega) (by omega) (by omega) (by omega) (by omega)
        (by omega)).1
      have r100 := (getVoxel_inBox v hwf (Int.floor coord.x + 1) (Int.floor coord.y)
        (Int.floor coord.z) (by omega) (by omega) (by omega) (by omega) (by omega) (by omega)).1
      have r101 := (getVoxel_inBox v hwf (Int.floor coord.x + 1) (Int.floor coord.y)
        (Int.floor coord.z + 1) (by omega) (by omega) (by omega) (by omega) (by omega)
        (by omega)).1
      have r110 := (getVoxel_inBox v hwf (Int.floor coord.x + 1) (Int.floor coord.y + 1)
        (Int.floor coord.z) (by omega) (by omega) (by omega) (by omega) (by omega) (by omega)).1
      have r111 := (getVoxel_inBox v hwf (Int.floor coord.x + 1) (Int.floor coord.y + 1)
        (Int.floor coord.z + 1) (by omega) (by omega) (by omega) (by omega) (by omega)
        (by omega)).1
      refine ⟨?_, _, _, _, _, _, _, _, _, r000, r001, r010, r011, r100, r101, r110, r111, ?_⟩
      · intro i j k hi hj hk
        exact readsInBounds_of_inBox v hwf _ _ _ ⟨by omega, by omega⟩ ⟨by omega, by omega⟩
          ⟨by omega, by omega⟩
      · unfold Volume.getSampleTriLinearInterpolation
        simp only [if_neg hguard, r000, r001, r010, r011, r100, r101, r110, r111,
          Option.bind_eq_bind, Option.some_bind, Option.pure_def]

/-- Witness of C29: the 4x4x4 volume at the coordinate `(1, 1, 1)`; both samplers return a
value. -/
theorem samplers_read_in_bounds_witness :
    constVolume.WellFormed
      ∧ (∃ r, constVolume.getSampleNearestNeighbourInterpolation ⟨1, 1, 1⟩ = some r)
      ∧ ∃ r, constVolume.getSampleTriLinearInterpolation ⟨1, 1, 1⟩ = some r := by
  have hwf : constVolume.WellFormed := by simp [Volume.WellFormed, constVolume]
  obtain ⟨hnn, htl⟩ := samplers_read_in_bounds constVolume hwf ⟨1, 1, 1⟩
  refine ⟨hwf, ?_, ?_⟩
  · rcases hnn with h | ⟨hin, hres⟩
    · exact ⟨0, h constVolume.m_data⟩
    · obtain ⟨_, _, _, _, _, _, h0, h1, hread⟩ := hin
      obtain ⟨a, ha, _⟩ := readAt_of_lt constVolume.m_data _ h0 h1
      exact ⟨a, by rw [hres, hread]; exact ha⟩
  · rcases htl with h | ⟨_, _, _, _, _, _, _, _, _, _, _, _, _, _, _, _, _, hres⟩
    · exact ⟨0, h constVolume.m_data⟩
    · exact ⟨_, hres⟩

theorem getGradient_inBox (g : GradientVolume F) (hwf : g.WellFormed) (x y z : Int)
    (hx : 0 ≤ x ∧ x < g.m_dim.x) (hy : 0 ≤ y ∧ y < g.m_dim.y) (hz : 0 ≤ z ∧ z < g.m_dim.z) :
    ∃ a, g.getGradient x y z = some a ∧ readAt g.m_data (flatIndex g.m_dim x y z) = some a := by
  have hb := flatIndex_bounds g.m_dim.x g.m_dim.y g.m_dim.z x y z hx.1 hx.2 hy.1 hy.2 hz.1 hz.2
  unfold GradientVolume.WellFormed at hwf
  rw [← hwf] at hb
  obtain ⟨a, ha, _⟩ := readAt_of_lt g.m_data _ hb.1 hb.2
  exact ⟨a, ha, ha⟩

theorem trilinearBlend_zero (g000 g001 g010 g011 g100 g101 g110 g111 : GradientVoxel F) :
    trilinearBlend 0 0 0 g000 g001 g010 g011 g100 g101 g110 g111 = g000 := by
  obtain ⟨⟨a, b, c⟩, m⟩ := g000
  simp [trilinearBlend, trilinearSum]

/-- C24: for a well-formed gradient volume and a coordinate with `c >= 0` and
`floor(c) + 1 < dims` on every axis, `getGradientLinearInterpolate` returns the trilinear blend
of the eight stored voxels around the coordinate, with the weights `1 - f` and `f` for
`f = c - floor(c)`, direction components and magnitude blended on their own; at an integer
lattice coordinate it returns the stored voxel at that coordinate. -/
theorem getGradientLinearInterpolate_trilinear (g : GradientVolume F) (hwf : g.WellFormed)
    (coord : Vec3 F)
    (hx0 : 0 ≤ coord.x) (hx1 : Int.floor coord.x + 1 < g.m_dim.x)
    (hy0 : 0 ≤ coord.y) (hy1 : Int.floor coord.y + 1 < g.m_dim.y)
    (hz0 : 0 ≤ coord.z) (hz1 : Int.floor coord.z + 1 < g.m_dim.z) :
    ∃ g000 g001 g010 g011 g100 g101 g110 g111 : GradientVoxel F,
      readAt g.m_data (flatIndex g.m_dim (Int.floor coord.x) (Int.floor coord.y)
          (Int.floor coord.z)) = some g000
        ∧ readAt g.m_data (flatIndex g.m_dim (Int.floor coord.x) (Int.floor coord.y)
          (Int.floor coord.z + 1)) = some g001
        ∧ readAt g.m_data (flatIndex g.m_dim (Int.floor coord.x) (Int.floor coord.y + 1)
          (Int.floor coord.z)) = some g010
        ∧ readAt g.m_data (flatIndex g.m_dim (Int.floor coord.x) (Int.floor coord.y + 1)
          (Int.floor coord.z + 1)) = some g011
        ∧ readAt g.m_data (flatIndex g.m_dim (Int.floor coord.x + 1) (Int.floor coord.y)
          (Int.floor coord.z)) = some g100
        ∧ readAt g.m_data (flatIndex g.m_dim (Int.floor coord.x + 1) (Int.floor coord.y)
          (Int.floor coord.z + 1)) = some g101
        ∧ readAt g.m_data (flatIndex g.m_dim (Int.floor coord.x + 1) (Int.floor coord.y + 1)
          (Int.floor coord.z)) = some g110
        ∧ readAt g.m_data (flatIndex g.m_dim (Int.floor coord.x + 1) (Int.floor coord.y + 1)
          (Int.floor coord.z + 1)) = some g111
        ∧ g.getGradientLinearInterpolate coord
          = some (trilinearBlend (coord.x - (Int.floor coord.x : F))
              (coord.y - (Int.floor coord.y : F)) (coord.z - (Int.floor coord.z : F))
              g000 g001 g010 g011 g100 g101 g110 g111)
        ∧ ((coord.x = (Int.floor coord.x : F) ∧ coord.y = (Int.floor coord.y : F)
            ∧ coord.z = (Int.floor coord.z : F)) →
          g.getGradientLinearInterpolate coord = some g000) := by
  have fx0 : 0 ≤ Int.floor coord.x := Int.floor_nonneg.mpr hx0
  have fy0 : 0 ≤ Int.floor coord.y := Int.floor_nonneg.mpr hy0
  have fz0 : 0 ≤ Int.floor coord.z := Int.floor_nonneg.mpr hz0
  obtain ⟨g000, r000, d000⟩ := getGradient_inBox g hwf (Int.floor coord.x) (Int.floor coord.y)
    (Int.floor coord.z) ⟨by omega, by omega⟩ ⟨by omega, by omega⟩ ⟨by omega, by omega⟩
  obtain ⟨g001, r001, d001⟩ := getGradient_inBox g hwf (Int.floor coord.x) (Int.floor coord.y)
    (Int.floor coord.z + 1) ⟨by omega, by omega⟩ ⟨by omega, by omega⟩ ⟨by omega, by omega⟩
  obtain ⟨g010, r010, d010⟩ := getGradient_inBox g hwf (Int.floor coord.x)
    (Int.floor coord.y + 1) (Int.floor coord.z) ⟨by omega, by omega⟩ ⟨by omega, by omega⟩
    ⟨by omega, by omega⟩
  obtain ⟨g011, r011, d011⟩ := getGradient_inBox g hwf (Int.floor coord.x)
    (Int.floor coord.y + 1) (Int.floor coord.z + 1) ⟨by omega, by omega⟩ ⟨by omega, by omega⟩
    ⟨by omega, by omega⟩
  obtain ⟨g100, r100, d100⟩ := getGradient_inBox g hwf (Int.floor coord.x + 1)
    (Int.floor coord.y) (Int.floor coord.z) ⟨by omega, by omega⟩ ⟨by omega, by omega⟩
    ⟨by omega, by omega⟩
  obtain ⟨g101, r101, d101⟩ := getGradient_inBox g hwf (Int.floor coord.x + 1)
    (Int.floor coord.y) (Int.floor coord.z + 1) ⟨by omega, by omega⟩ ⟨by omega, by omega⟩
    ⟨by omega, by omega⟩
  obtain ⟨g110, r110, d110⟩ := getGradient_inBox g hwf (Int.floor coord.x + 1)
    (Int.floor coord.y + 1) (Int.floor coord.z) ⟨by omega, by omega⟩ ⟨by omega, by omega⟩
    ⟨by omega, by omega⟩
  obtain ⟨g111, r111, d111⟩ := getGradient_inBox g hwf (Int.floor coord.x + 1)
    (Int.floor coord.y + 1) (Int.floor coord.z + 1) ⟨by omega, by omega⟩ ⟨by omega, by omega⟩
    ⟨by omega, by omega⟩
  have upper : ∀ (c : F) (d : Int), Int.floor c + 1 < d → ¬ ((d : F) ≤ c) := by
    intro c d hd hle
    have h1 : c < ((Int.floor c + 1 : Int) : F) := by
      push_cast
      exact Int.lt_floor_add_one c
    have h2 : ((Int.floor c + 1 : Int) : F) < (d : F) := Int.cast_lt.mpr hd
    linarith
  have hguard : ¬ ((Vec3.anyLessThan coord (Vec3.splat 0)
      || Vec3.anyGreaterThanEqual coord (Vec3.ofIVec3 g.m_dim)) = true) := by
    rw [Bool.or_eq_true, anyLessThan_iff, anyGreaterThanEqual_iff]
    simp only [Vec3.splat, Vec3.ofIVec3]
    have ux := upper coord.x g.m_dim.x hx1
    have uy := upper coord.y g.m_dim.y hy1
    have uz := upper coord.z g.m_dim.z hz1
    rintro ((h | h | h) | (h | h | h))
    · exact absurd hx0 (not_le.mpr h)
    · exact absurd hy0 (not_le.mpr h)
    · exact absurd hz0 (not_le.mpr h)
    · exact ux h
    · exact uy h
    · exact uz h
  have hres : g.getGradientLinearInterpolate coord
      = some (trilinearBlend (coord.x - (Int.floor coord.x : F))
          (coord.y - (Int.floor coord.y : F)) (coord.z - (Int.floor coord.z : F))
          g000 g001 g010 g011 g100 g101 g110 g111) := by
    unfold GradientVolume.getGradientLinearInterpolate
    rw [if_neg hguard]
    simp only [fmodOne, truncToInt_of_nonneg _ hx0, truncToInt_of_nonneg _ hy0,
      truncToInt_of_nonneg _ hz0, r000, r001, r010, r011, r100, r101, r110, r111,
      Option.bind_eq_bind, Option.some_bind, Option.pure_def, GradientVolume.linearInterpolate,
      Vec3.add, Vec3.scale, trilinearBlend, trilinearSum, Option.some.injEq,
      GradientVoxel.mk.injEq, Vec3.mk.injEq]
    refine ⟨⟨?_, ?_, ?_⟩, ?_⟩ <;> ring
  refine ⟨g000, g001, g010, g011, g100, g101, g110, g111, d000, d001, d010, d011, d100, d101,
    d110, d111, hres, ?_⟩
  rintro ⟨ex, ey, ez⟩
  rw [hres, sub_eq_zero.mpr ex, sub_eq_zero.mpr ey, sub_eq_zero.mpr ez, trilinearBlend_zero]

/-- Witness of C24: the gradient volume of the ramp volume at the coordinate `(1/2, 1, 1/2)`. -/
theorem getGradientLinearInterpolate_trilinear_witness :
    rampGradient.WellFormed
      ∧ Int.floor (1 / 2 : ℚ) + 1 < rampGradient.m_dim.x
      ∧ Int.floor (1 : ℚ) + 1 < rampGradient.m_dim.y
      ∧ ∃ r, rampGradient.getGradientLinearInterpolate ⟨1 / 2, 1, 1 / 2⟩ = some r := by
  have hwf : rampGradient.WellFormed := by
    simp [GradientVolume.WellFormed, rampGradient]
  have hhalf : Int.floor (1 / 2 : ℚ) = 0 := by
    rw [Int.floor_eq_iff]; norm_num
  have hone : Int.floor (1 : ℚ) = 1 := Int.floor_one
  have hx : Int.floor (1 / 2 : ℚ) + 1 < rampGradient.m_dim.x := by
    rw [hhalf]; decide
  have hy : Int.floor (1 : ℚ) + 1 < rampGradient.m_dim.y := by
    rw [hone]; decide
  obtain ⟨_, _, _, _, _, _, _, _, _, _, _, _, _, _, _, _, hres, _⟩ :=
    getGradientLinearInterpolate_trilinear rampGradient hwf ⟨1 / 2, 1, 1 / 2⟩
      (by norm_num) hx (by norm_num) hy (by norm_num) hx
  exact ⟨hwf, hx, hy, _, hres⟩

theorem getVoxel_some (v : Volume F) (hwf : v.WellFormed) (x y z : Int)
    (hx : -(v.m_dim.x - 1) ≤ x ∧ x ≤ 2 * (v.m_dim.x - 1))
    (hy : -(v.m_dim.y - 1) ≤ y ∧ y ≤ 2 * (v.m_dim.y - 1))
    (hz : -(v.m_dim.z - 1) ≤ z ∧ z ≤ 2 * (v.m_dim.z - 1)) :
    ∃ a, v.getVoxel x y z = some a := by
  have rx := reflectIndex_range x (v.m_dim.x - 1) hx.1 hx.2
  have ry := reflectIndex_range y (v.m_dim.y - 1) hy.1 hy.2
  have rz := reflectIndex_range z (v.m_dim.z - 1) hz.1 hz.2
  have hb := flatIndex_bounds v.m_dim.x v.m_dim.y v.m_dim.z _ _ _ rx.1 (by omega) ry.1
    (by omega) rz.1 (by omega)
  unfold Volume.WellFormed at hwf
  rw [← hwf] at hb
  obtain ⟨a, ha, _⟩ := readAt_of_lt v.m_data _ hb.1 hb.2
  exact ⟨a, ha⟩

theorem biCubicRow_some (v : Volume F) (hwf : v.WellFormed) (x y z : Int) (d : F) (j : Int)
    (hdx : 3 ≤ v.m_dim.x) (hx : 0 ≤ x ∧ x < v.m_dim.x)
    (hy : -(v.m_dim.y - 1) ≤ y + j ∧ y + j ≤ 2 * (v.m_dim.y - 1))
    (hz : -(v.m_dim.z - 1) ≤ z ∧ z ≤ 2 * (v.m_dim.z - 1)) :
    ∃ a, v.biCubicRow x y z d j = some a := by
  obtain ⟨a0, h0⟩ := getVoxel_some v hwf (x + -1) (y + j) z ⟨by omega, by omega⟩ hy hz
  obtain ⟨a1, h1⟩ := getVoxel_some v hwf (x + 0) (y + j) z ⟨by omega, by omega⟩ hy hz
  obtain ⟨a2, h2⟩ := getVoxel_some v hwf (x + 1) (y + j) z ⟨by omega, by omega⟩ hy hz
  obtain ⟨a3, h3⟩ := getVoxel_some v hwf (x + 2) (y + j) z ⟨by omega, by omega⟩ hy hz
  refine ⟨Volume.cubicInterpolate a0 a1 a2 a3 d, ?_⟩
  simp only [Volume.biCubicRow, h0, h1, h2, h3, Option.bind_eq_bind, Option.some_bind,
    Option.pure_def]

theorem biCubicInterpolate_some (v : Volume F) (hwf : v.WellFormed) (xy : Vec2 F) (z : Int)
    (hdx : 3 ≤ v.m_dim.x) (hdy : 3 ≤ v.m_dim.y)
    (hx : 0 ≤ xy.x ∧ xy.x < (v.m_dim.x : F)) (hy : 0 ≤ xy.y ∧ xy.y < (v.m_dim.y : F))
    (hz : -(v.m_dim.z - 1) ≤ z ∧ z ≤ 2 * (v.m_dim.z - 1)) :
    ∃ a, v.biCubicInterpolate xy z = some a := by
  have fx : 0 ≤ Int.floor xy.x ∧ Int.floor xy.x < v.m_dim.x :=
    ⟨Int.floor_nonneg.mpr hx.1, Int.floor_lt.mpr hx.2⟩
  have fy : 0 ≤ Int.floor xy.y ∧ Int.floor xy.y < v.m_dim.y :=
    ⟨Int.floor_nonneg.mpr hy.1, Int.floor_lt.mpr hy.2⟩
  obtain ⟨c0, h0⟩ := biCubicRow_some v hwf (Int.floor xy.x) (Int.floor xy.y) z
    (xy.x - (Int.floor xy.x : F)) (-1) hdx fx ⟨by omega, by omega⟩ hz
  obtain ⟨c1, h1⟩ := biCubicRow_some v hwf (Int.floor xy.x) (Int.floor xy.y) z
    (xy.x - (Int.floor xy.x : F)) 0 hdx fx ⟨by omega, by omega⟩ hz
  obtain ⟨c2, h2⟩ := biCubicRow_some v hwf (Int.floor xy.x) (Int.floor xy.y) z
    (xy.x - (Int.floor xy.x : F)) 1 hdx fx ⟨by omega, by omega⟩ hz
  obtain ⟨c3, h3⟩ := biCubicRow_some v hwf (Int.floor xy.x) (Int.floor xy.y) z
    (xy.x - (Int.floor xy.x : F)) 2 hdx fx ⟨by omega, by omega⟩ hz
  refine ⟨Volume.cubicInterpolate c0 c1 c2 c3 (xy.y - (Int.floor xy.y : F)), ?_⟩
  simp only [Volume.biCubicInterpolate, h0, h1, h2, h3, Option.bind_eq_bind, Option.some_bind,
    Option.pure_def]

/-- C27: for a well-formed volume whose dims are all at least 3 and a coordinate inside
`[0, dims)`, every voxel of the 4x4x4 neighbourhood `floor(c) - 1 .. floor(c) + 2` has reflected
indices within `[0, dims)` on every axis, `getVoxel` reads it inside the data array, and
`getSampleTriCubicInterpolation` returns a value. -/
theorem triCubic_reads_in_bounds (v : Volume F) (hwf : v.WellFormed) (coord : Vec3 F)
    (hdx : 3 ≤ v.m_dim.x) (hdy : 3 ≤ v.m_dim.y) (hdz : 3 ≤ v.m_dim.z)
    (hx : 0 ≤ coord.x ∧ coord.x < (v.m_dim.x : F))
    (hy : 0 ≤ coord.y ∧ coord.y < (v.m_dim.y : F))
    (hz : 0 ≤ coord.z ∧ coord.z < (v.m_dim.z : F)) :
    (∀ i j k : Int, -1 ≤ i → i ≤ 2 → -1 ≤ j → j ≤ 2 → -1 ≤ k → k ≤ 2 →
        (0 ≤ reflectIndex (Int.floor coord.x + i) (v.m_dim.x - 1)
          ∧ reflectIndex (Int.floor coord.x + i) (v.m_dim.x - 1) < v.m_dim.x)
        ∧ (0 ≤ reflectIndex (Int.floor coord.y + j) (v.m_dim.y - 1)
          ∧ reflectIndex (Int.floor coord.y + j) (v.m_dim.y - 1) < v.m_dim.y)
        ∧ (0 ≤ reflectIndex (Int.floor coord.z + k) (v.m_dim.z - 1)
          ∧ reflectIndex (Int.floor coord.z + k) (v.m_dim.z - 1) < v.m_dim.z)
        ∧ ∃ a, v.getVoxel (Int.floor coord.x + i) (Int.floor coord.y + j)
            (Int.floor coord.z + k) = some a)
      ∧ ∃ a, v.getSampleTriCubicInterpolation coord = some a := by
  have fx : 0 ≤ Int.floor coord.x ∧ Int.floor coord.x < v.m_dim.x :=
    ⟨Int.floor_nonneg.mpr hx.1, Int.floor_lt.mpr hx.2⟩
  have fy : 0 ≤ Int.floor coord.y ∧ Int.floor coord.y < v.m_dim.y :=
    ⟨Int.floor_nonneg.mpr hy.1, Int.floor_lt.mpr hy.2⟩
  have fz : 0 ≤ Int.floor coord.z ∧ Int.floor coord.z < v.m_dim.z :=
    ⟨Int.floor_nonneg.mpr hz.1, Int.floor_lt.mpr hz.2⟩
  constructor
  · intro i j k hi0 hi1 hj0 hj1 hk0 hk1
    have rx := reflectIndex_range (Int.floor coord.x + i) (v.m_dim.x - 1) (by omega) (by omega)
    have ry := reflectIndex_range (Int.floor coord.y + j) (v.m_dim.y - 1) (by omega) (by omega)
    have rz := reflectIndex_range (Int.floor coord.z + k) (v.m_dim.z - 1) (by omega) (by omega)
    exact ⟨⟨rx.1, by omega⟩, ⟨ry.1, by omega⟩, ⟨rz.1, by omega⟩,
      getVoxel_some v hwf _ _ _ ⟨by omega, by omega⟩ ⟨by omega, by omega⟩
        ⟨by omega, by omega⟩⟩
  · obtain ⟨s0, h0⟩ := biCubicInterpolate_some v hwf ⟨coord.x, coord.y⟩
      (Int.floor coord.z + -1) hdx hdy hx hy ⟨by omega, by omega⟩
    obtain ⟨s1, h1⟩ := biCubicInterpolate_some v hwf ⟨coord.x, coord.y⟩
      (Int.floor coord.z + 0) hdx hdy hx hy ⟨by omega, by omega⟩
    obtain ⟨s2, h2⟩ := biCubicInterpolate_some v hwf ⟨coord.x, coord.y⟩
      (Int.floor coord.z + 1) hdx hdy hx hy ⟨by omega, by omega⟩
    obtain ⟨s3, h3⟩ := biCubicInterpolate_some v hwf ⟨coord.x, coord.y⟩
      (Int.floor coord.z + 2) hdx hdy hx hy ⟨by omega, by omega⟩
    refine ⟨Volume.cubicInterpolate s0 s1 s2 s3 (coord.z - (Int.floor coord.z : F)), ?_⟩
    simp only [Volume.getSampleTriCubicInterpolation, h0, h1, h2, h3, Option.bind_eq_bind,
      Option.some_bind, Option.pure_def]

/-- Witness of C27: the corner coordinate `(0, 0, 0)` of the ramp volume, whose dims are all
3. -/
theorem triCubic_reads_in_bounds_witness :
    (rampVolume : Volume ℚ).WellFormed
      ∧ (3 : Int) ≤ (rampVolume : Volume ℚ).m_dim.x
      ∧ ∃ a, (rampVolume : Volume ℚ).getSampleTriCubicInterpolation ⟨0, 0, 0⟩ = some a :=
  have hwf : (rampVolume : Volume ℚ).WellFormed := by simp [Volume.WellFormed, rampVolume]
  ⟨hwf, by decide,
    (triCubic_reads_in_bounds (rampVolume : Volume ℚ) hwf ⟨0, 0, 0⟩ (by decide) (by decide)
      (by decide) ⟨le_refl _, by norm_num [rampVolume]⟩ ⟨le_refl _, by norm_num [rampVolume]⟩
      ⟨le_refl _, by norm_num [rampVolume]⟩).2⟩

theorem foldlM_invariant {σ ι : Type} (f : σ → ι → Option σ) (P : σ → Prop) (l : List ι)
    (hstep : ∀ s i s', i ∈ l → f s i = some s' → P s → P s') :
    ∀ s s', l.foldlM f s = some s' → P s → P s' := by
  induction l with
  | nil =>
    intro s s' h hP
    have e : s = s' := Option.some.inj h
    rw [← e]
    exact hP
  | cons i l ih =>
    intro s s' h hP
    rw [List.foldlM_cons] at h
    cases hf : f s i with
    | none =>
      rw [hf] at h
      exact absurd h (by simp)
    | some t =>
      rw [hf] at h
      exact ih (fun s i s' hi => hstep s i s' (List.mem_cons_of_mem _ hi)) t s' h
        (hstep s i t (List.mem_cons_self _ _) hf hP)

theorem gradientStep_nonneg (sqrt : F → F) (hsqrt : ∀ a : F, 0 ≤ a → 0 ≤ sqrt a)
    (v : Volume F) (dim : IVec3) (z y x : Int) (out out' : List (GradientVoxel F))
    (h : gradientStep sqrt v dim z y out x = some out')
    (hP : ∀ g ∈ out, 0 ≤ g.magnitude) : ∀ g ∈ out', 0 ≤ g.magnitude := by
  unfold gradientStep at h
  simp only [Option.bind_eq_bind, Option.bind_eq_some] at h
  obtain ⟨xp, _, xm, _, yp, _, ym, _, zp, _, zm, _, hw⟩ := h
  unfold writeAt at hw
  split_ifs at hw
  have e := Option.some.inj hw
  intro g hg
  rw [← e] at hg
  rcases List.mem_or_eq_of_mem_set hg with hmem | heq
  · exact hP g hmem
  · rw [heq]
    exact hsqrt _ (add_nonneg (add_nonneg (mul_self_nonneg _) (mul_self_nonneg _))
      (mul_self_nonneg _))

theorem computeGradientVolume_nonneg (sqrt : F → F) (hsqrt : ∀ a : F, 0 ≤ a → 0 ≤ sqrt a)
    (v : Volume F) (out : List (GradientVoxel F)) (h : computeGradientVolume sqrt v = some out) :
    ∀ g ∈ out, 0 ≤ g.magnitude := by
  unfold computeGradientVolume allocate at h
  simp only [Option.bind_eq_bind, Option.bind_eq_some] at h
  obtain ⟨init, hinit, hfold⟩ := h
  split_ifs at hinit
  have e := Option.some.inj hinit
  refine foldlM_invariant _ (fun o => ∀ g ∈ o, 0 ≤ g.magnitude) _ ?_ init out hfold ?_
  · intro s z s' _ hz hP
    refine foldlM_invariant _ (fun o => ∀ g ∈ o, 0 ≤ g.magnitude) _ ?_ s s' hz hP
    intro s y s' _ hy hP
    refine foldlM_invariant _ (fun o => ∀ g ∈ o, 0 ≤ g.magnitude) _ ?_ s s' hy hP
    intro s x s' _ hx hP
    exact gradientStep_nonneg sqrt hsqrt v _ z y x s s' hx hP
  · intro g hg
    rw [← e] at hg
    rw [List.eq_of_mem_replicate hg]
    exact le_refl _

/-- C28: for a well-formed volume with at least one voxel and a square root that is never
negative, the gradient volume built from it has `minMagnitude() = 0`: entry 0 of the voxel
array, voxel `(0, 0, 0)`, is the zero voxel, and no stored magnitude is negative. -/
theorem gradientVolume_minMagnitude_zero (sqrt : F → F) (hsqrt : ∀ a : F, 0 ≤ a → 0 ≤ sqrt a)
    (v : Volume F) (hwf : v.WellFormed) (hpos : 1 ≤ v.m_dim.x * v.m_dim.y * v.m_dim.z) :
    ∃ gv, GradientVolume.ofVolume sqrt v = some gv
      ∧ gv.minMagnitude = 0
      ∧ readAt gv.m_data 0 = some ⟨⟨0, 0, 0⟩, 0⟩
      ∧ ∀ g ∈ gv.m_data, 0 ≤ g.magnitude := by
  obtain ⟨out, hout, hlen, hfill⟩ := computeGradientVolume_spec sqrt v hwf
  have hnn := computeGradientVolume_nonneg sqrt hsqrt v out hout
  have hzero : readAt out 0 = some GradientVoxel.zero := by
    by_cases hthin : v.m_dim.x ≤ 2 ∨ v.m_dim.y ≤ 2 ∨ v.m_dim.z ≤ 2
    · have ht := computeGradientVolume_thin sqrt v (by omega) hthin
      rw [hout] at ht
      rw [Option.some.inj ht]
      unfold readAt
      rw [if_neg (by decide), List.getElem?_replicate, if_pos (by omega)]
    · push_neg at hthin
      have h0 := (hfill 0 0 0 (le_refl _) (by omega) (le_refl _) (by omega) (le_refl _)
        (by omega)).2 (by rw [mem_visitedVoxels]; omega)
      have hf : flatIndex v.m_dim 0 0 0 = 0 := by simp [flatIndex]
      rw [hf] at h0
      exact h0
  have hmem : GradientVoxel.zero ∈ out := by
    unfold readAt at hzero
    rw [if_neg (by decide)] at hzero
    exact List.getElem?_mem hzero
  have hne : out ≠ [] := List.ne_nil_of_mem hmem
  obtain ⟨lo, hlo, ⟨gl, hglMem, hgl⟩, hloLe⟩ := computeMinMagnitude_spec out hne
  obtain ⟨hi, hhi, _, _⟩ := computeMaxMagnitude_spec out hne
  have hlo0 : lo = 0 := by
    have h1 : lo ≤ 0 := hloLe _ hmem
    have h2 : 0 ≤ lo := by
      rw [← hgl]
      exact hnn gl hglMem
    exact le_antisymm h1 h2
  refine ⟨⟨v.dims, out, lo, hi, InterpolationMode.NearestNeighbour⟩, ?_, hlo0, hzero, hnn⟩
  simp only [GradientVolume.ofVolume, hout, hlo, hhi, Option.bind_eq_bind, Option.some_bind]
  rfl

/-- Witness of C28: the ramp volume over the real numbers with the real square root. -/
theorem gradientVolume_minMagnitude_zero_witness :
    ∃ gv, GradientVolume.ofVolume Real.sqrt (rampVolume : Volume ℝ) = some gv
      ∧ gv.minMagnitude = 0 := by
  obtain ⟨gv, h1, h2, _⟩ := gradientVolume_minMagnitude_zero Real.sqrt
    (fun a _ => Real.sqrt_nonneg a) (rampVolume : Volume ℝ)
    (by simp [Volume.WellFormed, rampVolume]) (by norm_num [rampVolume])
  exact ⟨gv, h1, h2⟩

theorem sum_set_succ (h : List Int) (n : Nat) (c : Int) (hc : h[n]? = some c) :
    (h.set n (c + 1)).sum = h.sum + 1 := by
  induction h generalizing n with
  | nil => simp at hc
  | cons a rest ih =>
    cases n with
    | zero =>
      simp only [List.getElem?_cons_zero, Option.some.injEq] at hc
      simp only [List.set_cons_zero, List.sum_cons, hc]
      ring
    | succ n =>
      simp only [List.getElem?_cons_succ] at hc
      simp only [List.set_cons_succ, List.sum_cons, ih n hc]
      ring

theorem truncToInt_natCast (n : Nat) : truncToInt ((n : F)) = (n : Int) := by
  unfold truncToInt
  rw [if_pos (Nat.cast_nonneg n)]
  exact Int.floor_natCast n

theorem readAt_natCast {α : Type} (data : List α) (k : Nat) : readAt data (k : Int) = data[k]? := by
  unfold readAt
  rw [if_neg (by omega)]
  simp

theorem maxElement_spec (data : List F) (hne : data ≠ []) :
    ∃ r, maxElement (fun a b => decide (a < b)) data = some r ∧ r ∈ data
      ∧ ∀ v ∈ data, v ≤ r := by
  cases data with
  | nil => exact absurd rfl hne
  | cons a rest =>
    obtain ⟨hmem, hle⟩ := foldl_max_spec (fun x : F => x) rest a
    exact ⟨_, rfl, hmem, hle⟩

theorem histogramStep_spec (m : Nat) (data done : List F) (t : List Int) (v : F)
    (hint : ∀ v ∈ data, ∃ n : Nat, v = (n : F)) (hmax : ∀ v ∈ data, v ≤ (m : F))
    (hv : v ∈ data)
    (hW : t.length = m + 1
      ∧ (∀ k : Nat, k ≤ m → readAt t (k : Int) = some ((done.count (k : F) : Nat) : Int))
      ∧ t.sum = (done.length : Int)) :
    ∃ t', histogramStep t v = some t'
      ∧ t'.length = m + 1
      ∧ (∀ k : Nat, k ≤ m →
          readAt t' (k : Int) = some (((done ++ [v]).count (k : F) : Nat) : Int))
      ∧ t'.sum = ((done ++ [v]).length : Int) := by
  obtain ⟨hlen, hcount, hsum⟩ := hW
  obtain ⟨n, rfl⟩ := hint v hv
  have hn : n ≤ m := Nat.cast_le.mp (hmax _ hv)
  have hread := hcount n hn
  have hlt : (n : Int) < (t.length : Int) := by omega
  have hstep : histogramStep t (n : F)
      = some (t.set n (((done.count (n : F) : Nat) : Int) + 1)) := by
    unfold histogramStep
    rw [truncToInt_natCast]
    simp only [hread, Option.bind_eq_bind, Option.some_bind]
    rw [writeAt_of_lt t _ _ (by omega) hlt]
    simp
  refine ⟨_, hstep, by rw [List.length_set]; exact hlen, ?_, ?_⟩
  · intro k hk
    by_cases hkn : k = n
    · subst hkn
      have h1 := readAt_set_self t (k : Int) (((done.count (k : F) : Nat) : Int) + 1)
        (by omega) hlt
      simp only [Int.toNat_ofNat] at h1
      rw [h1]
      simp [List.count_append]
    · have hne : (n : Int) ≠ (k : Int) := by omega
      have h1 := readAt_set_ne t (n : Int) (k : Int)
        (((done.count (n : F) : Nat) : Int) + 1) (by omega) hne
      simp only [Int.toNat_ofNat] at h1
      rw [h1, hcount k hk]
      have hF : ¬ ((n : F) = (k : F)) := fun h => hkn (Nat.cast_injective h).symm
      simp [List.count_append, List.count_singleton, hF]
  · rw [readAt_natCast] at hread
    rw [sum_set_succ t n _ hread, hsum]
    simp

theorem roundFloat32_of_quotient (x : F) (hx : 0 < x) (N : Int)
    (hN : x / (2 : F) ^ (Int.log 2 x - 23) = (N : F)) : roundFloat32 x = x := by
  have hulp : (2 : F) ^ (Int.log 2 x - 23) ≠ 0 := zpow_ne_zero _ (by norm_num)
  unfold roundFloat32
  rw [if_neg (ne_of_gt hx)]
  simp only [abs_of_pos hx, hN, Int.floor_intCast, sub_self]
  rw [if_pos hx.le, if_pos (by norm_num : (0 : F) < 1 / 2), ← hN]
  field_simp

theorem roundFloat32_natCast (m : Nat) (h1 : 1 ≤ m) (h2 : m ≤ 16777216) :
    roundFloat32 ((m : F)) = (m : F) := by
  have hpos : (0 : F) < (m : F) := Nat.cast_pos.mpr (by omega)
  have hlog : Int.log 2 (m : F) = (Nat.log 2 m : Int) := Int.log_natCast 2 m
  have hk1 : 2 ^ Nat.log 2 m ≤ m := Nat.pow_log_le_self 2 (by omega)
  have hk : Nat.log 2 m ≤ 24 := by
    by_contra hc
    have : 2 ^ 25 ≤ 2 ^ Nat.log 2 m := Nat.pow_le_pow_right (by norm_num) (by omega)
    omega
  by_cases hlt : Nat.log 2 m ≤ 23
  · refine roundFloat32_of_quotient (m : F) hpos ((m * 2 ^ (23 - Nat.log 2 m) : Nat) : Int) ?_
    rw [hlog]
    have he : ((Nat.log 2 m : Nat) : Int) - 23 = -((23 - Nat.log 2 m : Nat) : Int) := by omega
    rw [he, zpow_neg, zpow_natCast, div_inv_eq_mul]
    push_cast
    ring
  · have hk24 : Nat.log 2 m = 24 := by omega
    have hm : m = 16777216 := by
      rw [hk24] at hk1
      omega
    refine roundFloat32_of_quotient (m : F) hpos 8388608 ?_
    rw [hlog, hk24, hm]
    norm_num

theorem floatAdd_natCast_one (m : Nat) (h : m < 16777216) :
    floatAdd (m : F) 1 = ((m + 1 : Nat) : F) := by
  unfold floatAdd
  have e : (m : F) + 1 = ((m + 1 : Nat) : F) := by push_cast; ring
  rw [e]
  exact roundFloat32_natCast (m + 1) (by omega) (by omega)

theorem floatAdd_tie : floatAdd (16777216 : ℚ) 1 = 16777216 := by
  have hx : ((16777216 : ℚ) + 1) = ((16777217 : Nat) : ℚ) := by norm_num
  have hlog : Int.log 2 (((16777217 : Nat) : ℚ)) = 24 := by
    rw [Int.log_natCast]
    have h24 : Nat.log 2 16777217 = 24 := by
      rw [Nat.log_eq_iff (by norm_num)]
      norm_num
    rw [h24]
    rfl
  have hfl : Int.floor (((16777217 : Nat) : ℚ) / 2) = 8388608 := by
    rw [Int.floor_eq_iff]; norm_num
  unfold floatAdd roundFloat32
  rw [hx, if_neg (by norm_num)]
  have habs : |((16777217 : Nat) : ℚ)| = ((16777217 : Nat) : ℚ) := abs_of_nonneg (by norm_num)
  simp only [habs, hlog]
  norm_num [hfl]

theorem computeHistogram_singleton_short (a : F) (n : Nat)
    (hsize : truncToInt (floatAdd a 1) = (n : Int)) (hidx : truncToInt a = (n : Int)) :
    computeHistogram [a] = none := by
  have hread : readAt (List.replicate n (0 : Int)) (n : Int) = none := by
    rw [readAt_natCast, List.getElem?_replicate, if_neg (lt_irrefl n)]
  simp only [computeHistogram, maxElement, List.foldl_nil, Option.bind_eq_bind, Option.some_bind,
    hsize, allocate, if_neg (not_lt.mpr (Int.natCast_nonneg n)), Int.toNat_ofNat,
    List.foldlM_cons, histogramStep, hidx, hread, Option.none_bind]

/-- C21 fails on the code from the value `2^24` on: for the one-element data array
`16777216`, a non-negative integer, the `float` sum `16777216 + 1` rounds back to `16777216`, so
the array gets 16777216 entries, one short, and `histogram[16777216]++` is outside it. -/
theorem computeHistogram_float_counterexample :
    floatAdd (16777216 : ℚ) 1 = 16777216
      ∧ truncToInt (floatAdd (16777216 : ℚ) 1) = 16777216
      ∧ computeHistogram ([16777216] : List ℚ) = none := by
  have hidx : truncToInt (16777216 : ℚ) = ((16777216 : Nat) : Int) := by
    have h := truncToInt_natCast (F := ℚ) 16777216
    simpa using h
  have hsize : truncToInt (floatAdd (16777216 : ℚ) 1) = ((16777216 : Nat) : Int) := by
    rw [floatAdd_tie]
    exact hidx
  exact ⟨floatAdd_tie, by simpa using hsize,
    computeHistogram_singleton_short (16777216 : ℚ) 16777216 hsize hidx⟩

/-- C21 as amended: for a non-empty data array whose values are all non-negative integers below
`2^24`, `computeHistogram` returns an array of length `max(data) + 1` whose entry `k` is the
number of voxels with value `k`, and whose entries sum to the number of voxels. -/
theorem computeHistogram_counts (data : List F) (hne : data ≠ [])
    (hint : ∀ v ∈ data, ∃ n : Nat, n < 16777216 ∧ v = (n : F)) :
    ∃ (m : Nat) (h : List Int),
      (m : F) ∈ data ∧ (∀ v ∈ data, v ≤ (m : F))
        ∧ computeHistogram data = some h
        ∧ h.length = m + 1
        ∧ (∀ k : Nat, k ≤ m → readAt h (k : Int) = some ((data.count (k : F) : Nat) : Int))
        ∧ h.sum = (data.length : Int) := by
  have hint' : ∀ v ∈ data, ∃ n : Nat, v = (n : F) := by
    intro v hv
    obtain ⟨n, _, hn⟩ := hint v hv
    exact ⟨n, hn⟩
  obtain ⟨r, hr, hrMem, hrLe⟩ := maxElement_spec data hne
  obtain ⟨m, hm, rfl⟩ := hint r hrMem
  have hfold := foldlM_accum histogramStep
    (fun done t => t.length = m + 1
      ∧ (∀ k : Nat, k ≤ m → readAt t (k : Int) = some ((done.count (k : F) : Nat) : Int))
      ∧ t.sum = (done.length : Int))
    data [] (List.replicate (m + 1) 0)
    (fun d t v hv hW => histogramStep_spec m data d t v hint' hrLe hv hW)
    ⟨List.length_replicate _ _, by
      intro k hk
      rw [readAt_natCast, List.getElem?_replicate, if_pos (by omega)]
      simp, by simp⟩
  obtain ⟨h, hh, hlen, hcount, hsum⟩ := hfold
  rw [List.nil_append] at hcount hsum
  refine ⟨m, h, hrMem, hrLe, ?_, hlen, hcount, hsum⟩
  unfold computeHistogram allocate
  simp only [hr, floatAdd_natCast_one m hm, truncToInt_natCast, Option.bind_eq_bind,
    Option.some_bind]
  rw [if_neg (by omega)]
  simp only [Int.toNat_ofNat, Option.some_bind]
  exact hh

/-- Witness of the amended C21: the data array `7 7 7 7 7 7 7 7` of a 2x2x2 volume. -/
theorem computeHistogram_counts_witness :
    ∃ (m : Nat) (h : List Int),
      computeHistogram ([7, 7, 7, 7, 7, 7, 7, 7] : List ℚ) = some h
        ∧ h.length = m + 1
        ∧ h.sum = 8 := by
  obtain ⟨m, h, _, _, h1, h2, _, h3⟩ := computeHistogram_counts
    ([7, 7, 7, 7, 7, 7, 7, 7] : List ℚ) (by simp)
    (by
      intro v hv
      refine ⟨7, by norm_num, ?_⟩
      simp only [List.mem_cons, List.mem_singleton, List.not_mem_nil, or_false, or_self] at hv
      rw [hv]
      norm_num)
  exact ⟨m, h, h1, h2, by simpa using h3⟩

end Float

end VolVis
